import Mathlib

/-!
# ALFA trading dashboard: the paper-order backend (`backend/server.js`)

A shallow embedding of the request handlers of `backend/server.js` and the
properties of the order-placement and balance-accounting flow.

Modelling conventions.

* A JavaScript number is an IEEE 754 binary64 value, held as the exact
  rational it denotes, or `NaN`, or an infinity (`JsNum`).  Every arithmetic
  operation and every conversion from text rounds its exact result to the
  nearest binary64 value, ties to even, and overflows to an infinity
  (`roundDouble`).  `+0` and `-0` are one value.  A numeric literal of the
  source denotes the binary64 value nearest to it.
* A request-body field is a `JsVal`: `undefined` when the field is absent,
  otherwise a JSON scalar.  `JsVal.obj` stands for a function or a plain
  object with the default conversions (numeric conversion `NaN`, no
  `toUpperCase` method); arrays are outside the model.
* `jwt.verify` is an external library: its outcome is the `Auth` input.
* `generateId()` and `new Date()` are inputs of the handler (`Env`).
* `String.prototype.toUpperCase` is the full Unicode upper-case mapping
  (version 14.0), applied code point by code point.
* The signal route is stated in exact arithmetic over the prices of the
  table.
-/

namespace AlfaTrading

/-! ## JavaScript values and coercions -/

/-- A JavaScript number: an exact rational, an infinity, or `NaN`. -/
inductive JsNum where
  | fin (q : ℚ)
  | posInf
  | negInf
  | nan
  deriving DecidableEq, Repr

/-- A JavaScript value as it can occur in a request body or as a member of
the price table object. -/
inductive JsVal where
  | undefined
  | null
  | bool (b : Bool)
  | num (n : JsNum)
  | str (s : String)
  | obj
  deriving DecidableEq, Repr

/-! ### Rounding to binary64 -/

/-- Round to the nearest integer, ties to the even one. -/
def roundHalfEven (x : ℚ) : ℤ :=
  let f := Int.floor x
  let r := x - (f : ℚ)
  if r < 1 / 2 then f
  else if 1 / 2 < r then f + 1
  else if f % 2 = 0 then f else f + 1

/-- The exponent of the unit in the last place of the binary64 numbers of
magnitude `a`: 52 below the binade of `a`, and `-1074` throughout the
subnormal range. -/
def ulpExponent (a : ℚ) : ℤ := max (Int.log 2 a) (-1022) - 52

/-- The multiple of the unit in the last place nearest to `q`, ties to even:
the binary64 value nearest to `q` as long as it is in range. -/
def nearestDouble (q : ℚ) : ℚ :=
  (roundHalfEven (q / (2 : ℚ) ^ ulpExponent |q|) : ℚ) * (2 : ℚ) ^ ulpExponent |q|

/-- The Number value for the real `q`: the nearest binary64 value, ties to
even, and an infinity from `2 ^ 1024` on. -/
def roundDouble (q : ℚ) : JsNum :=
  if (2 : ℚ) ^ 1024 ≤ nearestDouble q then .posInf
  else if nearestDouble q ≤ -(2 : ℚ) ^ 1024 then .negInf
  else .fin (nearestDouble q)

namespace JsNum

/-- ToBoolean on numbers: `0` and `NaN` are falsy. -/
def truthy : JsNum → Bool
  | fin q => decide (q ≠ 0)
  | posInf => true
  | negInf => true
  | nan => false

/-- Unary minus. -/
def neg : JsNum → JsNum
  | fin q => fin (-q)
  | posInf => negInf
  | negInf => posInf
  | nan => nan

/-- The infinity carrying the sign of `q * s`, for `s = ±1` given as a flag
(`pos = true` is `+Infinity`); `NaN` when `q = 0`. -/
def infTimes (pos : Bool) (q : ℚ) : JsNum :=
  if q = 0 then nan
  else if decide (0 < q) = pos then posInf else negInf

/-- Number multiplication (`*`): the exact product, rounded. -/
def mul : JsNum → JsNum → JsNum
  | fin a, fin b => roundDouble (a * b)
  | nan, _ => nan
  | _, nan => nan
  | posInf, fin b => infTimes true b
  | negInf, fin b => infTimes false b
  | fin a, posInf => infTimes true a
  | fin a, negInf => infTimes false a
  | posInf, posInf => posInf
  | negInf, negInf => posInf
  | posInf, negInf => negInf
  | negInf, posInf => negInf

/-- Number addition (`+` on two numbers): the exact sum, rounded. -/
def add : JsNum → JsNum → JsNum
  | fin a, fin b => roundDouble (a + b)
  | nan, _ => nan
  | _, nan => nan
  | posInf, negInf => nan
  | negInf, posInf => nan
  | posInf, _ => posInf
  | negInf, _ => negInf
  | fin _, posInf => posInf
  | fin _, negInf => negInf

/-- Number subtraction (`-`). -/
def sub (a b : JsNum) : JsNum := add a (neg b)

/-- The relational operator `a > b` on numbers; false when either is `NaN`. -/
def gt : JsNum → JsNum → Bool
  | fin a, fin b => decide (b < a)
  | nan, _ => false
  | _, nan => false
  | posInf, posInf => false
  | posInf, _ => true
  | negInf, _ => false
  | fin _, negInf => true
  | fin _, posInf => false

end JsNum

/-! ### Strings -/

/-- The characters of `StrWhiteSpaceChar`: white space and line terminators. -/
def isStrWhiteSpace (c : Char) : Bool :=
  c.toNat ∈ [0x9, 0xA, 0xB, 0xC, 0xD, 0x20, 0xA0, 0x1680, 0x2000, 0x2001,
    0x2002, 0x2003, 0x2004, 0x2005, 0x2006, 0x2007, 0x2008, 0x2009, 0x200A,
    0x2028, 0x2029, 0x202F, 0x205F, 0x3000, 0xFEFF]

/-- Leading white space removed. -/
def trimStart (cs : List Char) : List Char := cs.dropWhile isStrWhiteSpace

/-- Leading and trailing white space removed. -/
def trimBoth (cs : List Char) : List Char :=
  (trimStart (trimStart cs).reverse).reverse

/-- The value of a digit character in the given radix (at most 16). -/
def digitValue (radix : Nat) (c : Char) : Option Nat :=
  let n := c.toNat
  let v : Option Nat :=
    if 48 ≤ n ∧ n ≤ 57 then some (n - 48)
    else if 97 ≤ n ∧ n ≤ 102 then some (n - 87)
    else if 65 ≤ n ∧ n ≤ 70 then some (n - 55)
    else none
  match v with
  | some d => if d < radix then some d else none
  | none => none

/-- The longest run of leading digits of the radix, with its value read
left to right (`acc` holds the digits already read), and what follows it. -/
def readDigits (radix : Nat) : List Char → Nat → Nat → Nat × Nat × List Char
  | [], acc, len => (acc, len, [])
  | c :: cs, acc, len =>
    match digitValue radix c with
    | some d => readDigits radix cs (acc * radix + d) (len + 1)
    | none => (acc, len, c :: cs)

/-- A `NonDecimalIntegerLiteral` body: one or more digits of the radix and
nothing else. -/
def readWholeInteger (radix : Nat) (cs : List Char) : JsNum :=
  match readDigits radix cs 0 0 with
  | (v, len, []) => if len = 0 then .nan else roundDouble v
  | _ => .nan

/-- An `ExponentPart` after the digits: empty, or `e`/`E` followed by an
optionally signed run of decimal digits that ends the string.  The result is
the power of ten to scale by. -/
def readExponent : List Char → Option ℚ
  | [] => some 1
  | c :: cs =>
    if c = 'e' ∨ c = 'E' then
      let (negative, ds) :=
        match cs with
        | '+' :: r => (false, r)
        | '-' :: r => (true, r)
        | r => (false, r)
      match readDigits 10 ds 0 0 with
      | (v, len, []) =>
        if len = 0 then none
        else some (if negative then ((10 : ℚ) ^ v)⁻¹ else (10 : ℚ) ^ v)
      | _ => none
    else none

/-- A `StrUnsignedDecimalLiteral`: `Infinity`, or digits with an optional
fraction and an optional exponent, with at least one digit before the
exponent. -/
def readUnsignedDecimal (cs : List Char) : JsNum :=
  if cs = "Infinity".toList then .posInf
  else
    match readDigits 10 cs 0 0 with
    | (i, ilen, rest) =>
      let (f, flen, rest2) :=
        match rest with
        | '.' :: r => readDigits 10 r 0 0
        | r => (0, 0, r)
      if ilen + flen = 0 then .nan
      else
        match readExponent rest2 with
        | some scale => roundDouble (((i : ℚ) + (f : ℚ) / (10 : ℚ) ^ flen) * scale)
        | none => .nan

/-- The abstract operation StringToNumber, used by `ToNumber` on strings:
surrounding white space is dropped, the empty string is `0`, a hexadecimal,
octal or binary literal is unsigned, a decimal literal may carry a sign, and
anything else is `NaN`; the value read is rounded to binary64. -/
def stringToNumber (s : String) : JsNum :=
  match trimBoth s.toList with
  | [] => .fin 0
  | '0' :: 'x' :: r => readWholeInteger 16 r
  | '0' :: 'X' :: r => readWholeInteger 16 r
  | '0' :: 'o' :: r => readWholeInteger 8 r
  | '0' :: 'O' :: r => readWholeInteger 8 r
  | '0' :: 'b' :: r => readWholeInteger 2 r
  | '0' :: 'B' :: r => readWholeInteger 2 r
  | '+' :: r => readUnsignedDecimal r
  | '-' :: r => (readUnsignedDecimal r).neg
  | r => readUnsignedDecimal r

/-- The function `parseInt` on a string with no radix argument: leading white
space and a sign are skipped, a `0x`/`0X` marker selects radix 16, and the
longest run of digits is read; `NaN` when there is none. -/
def parseIntString (s : String) : JsNum :=
  let (negative, body) :=
    match trimStart s.toList with
    | '+' :: r => (false, r)
    | '-' :: r => (true, r)
    | r => (false, r)
  let (radix, digits) :=
    match body with
    | '0' :: 'x' :: r => (16, r)
    | '0' :: 'X' :: r => (16, r)
    | r => (10, r)
  match readDigits radix digits 0 0 with
  | (v, len, _) =>
    if len = 0 then .nan
    else roundDouble (if negative then -(v : ℚ) else (v : ℚ))

/-- The first significant decimal digit of a positive rational. -/
def leadingDigit (a : ℚ) : Nat :=
  (Int.floor (a / (10 : ℚ) ^ Int.log 10 a)).toNat

/-- The first digit of the shortest decimal that rounds to the positive
binary64 value `a`, as Number::toString prints it: when the next one-digit
decimal above `a` still rounds to `a`, that decimal is the shortest one. -/
def shortestLeadingDigit (a : ℚ) : Nat :=
  let d := leadingDigit a
  if nearestDouble (((d : ℚ) + 1) * (10 : ℚ) ^ Int.log 10 a) = a then
    (if d = 9 then 1 else d + 1)
  else d

/-- The function `parseInt` on a number, which first converts it to a
string: a number printed in plain decimal (`1e-6 ≤ |q| < 1e21`, and the
binary64 value printed as `0.000001`) gives `q` truncated towards zero;
otherwise the string is in exponent form and only its first digit is read. -/
def parseIntNumber (q : ℚ) : ℚ :=
  if q = 0 then 0
  else if (1 : ℚ) / 1000000 ≤ |q| ∧ |q| < (10 : ℚ) ^ 21 then
    (if 0 ≤ q then (Int.floor q : ℚ) else (Int.ceil q : ℚ))
  else if |q| < (1 : ℚ) / 1000000 ∧ nearestDouble ((1 : ℚ) / 1000000) = |q| then 0
  else if 0 < q then (shortestLeadingDigit q : ℚ) else -(shortestLeadingDigit (-q) : ℚ)

/-- The single-character upper-case mappings of Unicode 14.0, as runs
`(first, last, stride, image of first)`: every code point of a run, counted
from `first` in steps of `stride`, maps to the image of `first` shifted by the
same distance. -/
def upperCaseRuns : List (Nat × Nat × Nat × Nat) :=
  [
   (0x61, 0x7A, 1, 0x41), (0xB5, 0xB5, 1, 0x39C), (0xE0, 0xF6, 1, 0xC0),
   (0xF8, 0xFE, 1, 0xD8), (0xFF, 0xFF, 1, 0x178), (0x101, 0x12F, 2, 0x100),
   (0x131, 0x131, 1, 0x49), (0x133, 0x137, 2, 0x132), (0x13A, 0x148, 2, 0x139),
   (0x14B, 0x177, 2, 0x14A), (0x17A, 0x17E, 2, 0x179), (0x17F, 0x17F, 1, 0x53),
   (0x180, 0x180, 1, 0x243), (0x183, 0x185, 2, 0x182), (0x188, 0x188, 1, 0x187),
   (0x18C, 0x18C, 1, 0x18B), (0x192, 0x192, 1, 0x191), (0x195, 0x195, 1, 0x1F6),
   (0x199, 0x199, 1, 0x198), (0x19A, 0x19A, 1, 0x23D), (0x19E, 0x19E, 1, 0x220),
   (0x1A1, 0x1A5, 2, 0x1A0), (0x1A8, 0x1A8, 1, 0x1A7), (0x1AD, 0x1AD, 1, 0x1AC),
   (0x1B0, 0x1B0, 1, 0x1AF), (0x1B4, 0x1B6, 2, 0x1B3), (0x1B9, 0x1B9, 1, 0x1B8),
   (0x1BD, 0x1BD, 1, 0x1BC), (0x1BF, 0x1BF, 1, 0x1F7), (0x1C5, 0x1C5, 1, 0x1C4),
   (0x1C6, 0x1C6, 1, 0x1C4), (0x1C8, 0x1C8, 1, 0x1C7), (0x1C9, 0x1C9, 1, 0x1C7),
   (0x1CB, 0x1CB, 1, 0x1CA), (0x1CC, 0x1CC, 1, 0x1CA), (0x1CE, 0x1DC, 2, 0x1CD),
   (0x1DD, 0x1DD, 1, 0x18E), (0x1DF, 0x1EF, 2, 0x1DE), (0x1F2, 0x1F2, 1, 0x1F1),
   (0x1F3, 0x1F3, 1, 0x1F1), (0x1F5, 0x1F5, 1, 0x1F4), (0x1F9, 0x21F, 2, 0x1F8),
   (0x223, 0x233, 2, 0x222), (0x23C, 0x23C, 1, 0x23B), (0x23F, 0x240, 1, 0x2C7E),
   (0x242, 0x242, 1, 0x241), (0x247, 0x24F, 2, 0x246), (0x250, 0x250, 1, 0x2C6F),
   (0x251, 0x251, 1, 0x2C6D), (0x252, 0x252, 1, 0x2C70), (0x253, 0x253, 1, 0x181),
   (0x254, 0x254, 1, 0x186), (0x256, 0x257, 1, 0x189), (0x259, 0x259, 1, 0x18F),
   (0x25B, 0x25B, 1, 0x190), (0x25C, 0x25C, 1, 0xA7AB), (0x260, 0x260, 1, 0x193),
   (0x261, 0x261, 1, 0xA7AC), (0x263, 0x263, 1, 0x194), (0x265, 0x265, 1, 0xA78D),
   (0x266, 0x266, 1, 0xA7AA), (0x268, 0x268, 1, 0x197), (0x269, 0x269, 1, 0x196),
   (0x26A, 0x26A, 1, 0xA7AE), (0x26B, 0x26B, 1, 0x2C62), (0x26C, 0x26C, 1, 0xA7AD),
   (0x26F, 0x26F, 1, 0x19C), (0x271, 0x271, 1, 0x2C6E), (0x272, 0x272, 1, 0x19D),
   (0x275, 0x275, 1, 0x19F), (0x27D, 0x27D, 1, 0x2C64), (0x280, 0x280, 1, 0x1A6),
   (0x282, 0x282, 1, 0xA7C5), (0x283, 0x283, 1, 0x1A9), (0x287, 0x287, 1, 0xA7B1),
   (0x288, 0x288, 1, 0x1AE), (0x289, 0x289, 1, 0x244), (0x28A, 0x28B, 1, 0x1B1),
   (0x28C, 0x28C, 1, 0x245), (0x292, 0x292, 1, 0x1B7), (0x29D, 0x29D, 1, 0xA7B2),
   (0x29E, 0x29E, 1, 0xA7B0), (0x345, 0x345, 1, 0x399), (0x371, 0x373, 2, 0x370),
   (0x377, 0x377, 1, 0x376), (0x37B, 0x37D, 1, 0x3FD), (0x3AC, 0x3AC, 1, 0x386),
   (0x3AD, 0x3AF, 1, 0x388), (0x3B1, 0x3C1, 1, 0x391), (0x3C2, 0x3C2, 1, 0x3A3),
   (0x3C3, 0x3CB, 1, 0x3A3), (0x3CC, 0x3CC, 1, 0x38C), (0x3CD, 0x3CE, 1, 0x38E),
   (0x3D0, 0x3D0, 1, 0x392), (0x3D1, 0x3D1, 1, 0x398), (0x3D5, 0x3D5, 1, 0x3A6),
   (0x3D6, 0x3D6, 1, 0x3A0), (0x3D7, 0x3D7, 1, 0x3CF), (0x3D9, 0x3EF, 2, 0x3D8),
   (0x3F0, 0x3F0, 1, 0x39A), (0x3F1, 0x3F1, 1, 0x3A1), (0x3F2, 0x3F2, 1, 0x3F9),
   (0x3F3, 0x3F3, 1, 0x37F), (0x3F5, 0x3F5, 1, 0x395), (0x3F8, 0x3F8, 1, 0x3F7),
   (0x3FB, 0x3FB, 1, 0x3FA), (0x430, 0x44F, 1, 0x410), (0x450, 0x45F, 1, 0x400),
   (0x461, 0x481, 2, 0x460), (0x48B, 0x4BF, 2, 0x48A), (0x4C2, 0x4CE, 2, 0x4C1),
   (0x4CF, 0x4CF, 1, 0x4C0), (0x4D1, 0x52F, 2, 0x4D0), (0x561, 0x586, 1, 0x531),
   (0x10D0, 0x10FA, 1, 0x1C90), (0x10FD, 0x10FF, 1, 0x1CBD), (0x13F8, 0x13FD, 1, 0x13F0),
   (0x1C80, 0x1C80, 1, 0x412), (0x1C81, 0x1C81, 1, 0x414), (0x1C82, 0x1C82, 1, 0x41E),
   (0x1C83, 0x1C84, 1, 0x421), (0x1C85, 0x1C85, 1, 0x422), (0x1C86, 0x1C86, 1, 0x42A),
   (0x1C87, 0x1C87, 1, 0x462), (0x1C88, 0x1C88, 1, 0xA64A), (0x1D79, 0x1D79, 1, 0xA77D),
   (0x1D7D, 0x1D7D, 1, 0x2C63), (0x1D8E, 0x1D8E, 1, 0xA7C6), (0x1E01, 0x1E95, 2, 0x1E00),
   (0x1E9B, 0x1E9B, 1, 0x1E60), (0x1EA1, 0x1EFF, 2, 0x1EA0), (0x1F00, 0x1F07, 1, 0x1F08),
   (0x1F10, 0x1F15, 1, 0x1F18), (0x1F20, 0x1F27, 1, 0x1F28), (0x1F30, 0x1F37, 1, 0x1F38),
   (0x1F40, 0x1F45, 1, 0x1F48), (0x1F51, 0x1F57, 2, 0x1F59), (0x1F60, 0x1F67, 1, 0x1F68),
   (0x1F70, 0x1F71, 1, 0x1FBA), (0x1F72, 0x1F75, 1, 0x1FC8), (0x1F76, 0x1F77, 1, 0x1FDA),
   (0x1F78, 0x1F79, 1, 0x1FF8), (0x1F7A, 0x1F7B, 1, 0x1FEA), (0x1F7C, 0x1F7D, 1, 0x1FFA),
   (0x1FB0, 0x1FB1, 1, 0x1FB8), (0x1FBE, 0x1FBE, 1, 0x399), (0x1FD0, 0x1FD1, 1, 0x1FD8),
   (0x1FE0, 0x1FE1, 1, 0x1FE8), (0x1FE5, 0x1FE5, 1, 0x1FEC), (0x214E, 0x214E, 1, 0x2132),
   (0x2170, 0x217F, 1, 0x2160), (0x2184, 0x2184, 1, 0x2183), (0x24D0, 0x24E9, 1, 0x24B6),
   (0x2C30, 0x2C5F, 1, 0x2C00), (0x2C61, 0x2C61, 1, 0x2C60), (0x2C65, 0x2C65, 1, 0x23A),
   (0x2C66, 0x2C66, 1, 0x23E), (0x2C68, 0x2C6C, 2, 0x2C67), (0x2C73, 0x2C73, 1, 0x2C72),
   (0x2C76, 0x2C76, 1, 0x2C75), (0x2C81, 0x2CE3, 2, 0x2C80), (0x2CEC, 0x2CEE, 2, 0x2CEB),
   (0x2CF3, 0x2CF3, 1, 0x2CF2), (0x2D00, 0x2D25, 1, 0x10A0), (0x2D27, 0x2D27, 1, 0x10C7),
   (0x2D2D, 0x2D2D, 1, 0x10CD), (0xA641, 0xA66D, 2, 0xA640), (0xA681, 0xA69B, 2, 0xA680),
   (0xA723, 0xA72F, 2, 0xA722), (0xA733, 0xA76F, 2, 0xA732), (0xA77A, 0xA77C, 2, 0xA779),
   (0xA77F, 0xA787, 2, 0xA77E), (0xA78C, 0xA78C, 1, 0xA78B), (0xA791, 0xA793, 2, 0xA790),
   (0xA794, 0xA794, 1, 0xA7C4), (0xA797, 0xA7A9, 2, 0xA796), (0xA7B5, 0xA7C3, 2, 0xA7B4),
   (0xA7C8, 0xA7CA, 2, 0xA7C7), (0xA7D1, 0xA7D1, 1, 0xA7D0), (0xA7D7, 0xA7D9, 2, 0xA7D6),
   (0xA7F6, 0xA7F6, 1, 0xA7F5), (0xAB53, 0xAB53, 1, 0xA7B3), (0xAB70, 0xABBF, 1, 0x13A0),
   (0xFF41, 0xFF5A, 1, 0xFF21), (0x10428, 0x1044F, 1, 0x10400), (0x104D8, 0x104FB, 1, 0x104B0),
   (0x10597, 0x105A1, 1, 0x10570), (0x105A3, 0x105B1, 1, 0x1057C), (0x105B3, 0x105B9, 1, 0x1058C),
   (0x105BB, 0x105BC, 1, 0x10594), (0x10CC0, 0x10CF2, 1, 0x10C80), (0x118C0, 0x118DF, 1, 0x118A0),
   (0x16E60, 0x16E7F, 1, 0x16E40), (0x1E922, 0x1E943, 1, 0x1E900)
  ]

/-- The code points whose upper case is more than one character (the
unconditional mappings of `SpecialCasing.txt`, Unicode 14.0). -/
def upperCaseSpecial : List (Nat × List Nat) :=
  [
   (0xDF, [0x53, 0x53]), (0x149, [0x2BC, 0x4E]), (0x1F0, [0x4A, 0x30C]),
   (0x390, [0x399, 0x308, 0x301]), (0x3B0, [0x3A5, 0x308, 0x301]), (0x587, [0x535, 0x552]),
   (0x1E96, [0x48, 0x331]), (0x1E97, [0x54, 0x308]), (0x1E98, [0x57, 0x30A]),
   (0x1E99, [0x59, 0x30A]), (0x1E9A, [0x41, 0x2BE]), (0x1F50, [0x3A5, 0x313]),
   (0x1F52, [0x3A5, 0x313, 0x300]), (0x1F54, [0x3A5, 0x313, 0x301]), (0x1F56, [0x3A5, 0x313, 0x342]),
   (0x1F80, [0x1F08, 0x399]), (0x1F81, [0x1F09, 0x399]), (0x1F82, [0x1F0A, 0x399]),
   (0x1F83, [0x1F0B, 0x399]), (0x1F84, [0x1F0C, 0x399]), (0x1F85, [0x1F0D, 0x399]),
   (0x1F86, [0x1F0E, 0x399]), (0x1F87, [0x1F0F, 0x399]), (0x1F88, [0x1F08, 0x399]),
   (0x1F89, [0x1F09, 0x399]), (0x1F8A, [0x1F0A, 0x399]), (0x1F8B, [0x1F0B, 0x399]),
   (0x1F8C, [0x1F0C, 0x399]), (0x1F8D, [0x1F0D, 0x399]), (0x1F8E, [0x1F0E, 0x399]),
   (0x1F8F, [0x1F0F, 0x399]), (0x1F90, [0x1F28, 0x399]), (0x1F91, [0x1F29, 0x399]),
   (0x1F92, [0x1F2A, 0x399]), (0x1F93, [0x1F2B, 0x399]), (0x1F94, [0x1F2C, 0x399]),
   (0x1F95, [0x1F2D, 0x399]), (0x1F96, [0x1F2E, 0x399]), (0x1F97, [0x1F2F, 0x399]),
   (0x1F98, [0x1F28, 0x399]), (0x1F99, [0x1F29, 0x399]), (0x1F9A, [0x1F2A, 0x399]),
   (0x1F9B, [0x1F2B, 0x399]), (0x1F9C, [0x1F2C, 0x399]), (0x1F9D, [0x1F2D, 0x399]),
   (0x1F9E, [0x1F2E, 0x399]), (0x1F9F, [0x1F2F, 0x399]), (0x1FA0, [0x1F68, 0x399]),
   (0x1FA1, [0x1F69, 0x399]), (0x1FA2, [0x1F6A, 0x399]), (0x1FA3, [0x1F6B, 0x399]),
   (0x1FA4, [0x1F6C, 0x399]), (0x1FA5, [0x1F6D, 0x399]), (0x1FA6, [0x1F6E, 0x399]),
   (0x1FA7, [0x1F6F, 0x399]), (0x1FA8, [0x1F68, 0x399]), (0x1FA9, [0x1F69, 0x399]),
   (0x1FAA, [0x1F6A, 0x399]), (0x1FAB, [0x1F6B, 0x399]), (0x1FAC, [0x1F6C, 0x399]),
   (0x1FAD, [0x1F6D, 0x399]), (0x1FAE, [0x1F6E, 0x399]), (0x1FAF, [0x1F6F, 0x399]),
   (0x1FB2, [0x1FBA, 0x399]), (0x1FB3, [0x391, 0x399]), (0x1FB4, [0x386, 0x399]),
   (0x1FB6, [0x391, 0x342]), (0x1FB7, [0x391, 0x342, 0x399]), (0x1FBC, [0x391, 0x399]),
   (0x1FC2, [0x1FCA, 0x399]), (0x1FC3, [0x397, 0x399]), (0x1FC4, [0x389, 0x399]),
   (0x1FC6, [0x397, 0x342]), (0x1FC7, [0x397, 0x342, 0x399]), (0x1FCC, [0x397, 0x399]),
   (0x1FD2, [0x399, 0x308, 0x300]), (0x1FD3, [0x399, 0x308, 0x301]), (0x1FD6, [0x399, 0x342]),
   (0x1FD7, [0x399, 0x308, 0x342]), (0x1FE2, [0x3A5, 0x308, 0x300]), (0x1FE3, [0x3A5, 0x308, 0x301]),
   (0x1FE4, [0x3A1, 0x313]), (0x1FE6, [0x3A5, 0x342]), (0x1FE7, [0x3A5, 0x308, 0x342]),
   (0x1FF2, [0x1FFA, 0x399]), (0x1FF3, [0x3A9, 0x399]), (0x1FF4, [0x38F, 0x399]),
   (0x1FF6, [0x3A9, 0x342]), (0x1FF7, [0x3A9, 0x342, 0x399]), (0x1FFC, [0x3A9, 0x399]),
   (0xFB00, [0x46, 0x46]), (0xFB01, [0x46, 0x49]), (0xFB02, [0x46, 0x4C]),
   (0xFB03, [0x46, 0x46, 0x49]), (0xFB04, [0x46, 0x46, 0x4C]), (0xFB05, [0x53, 0x54]),
   (0xFB06, [0x53, 0x54]), (0xFB13, [0x544, 0x546]), (0xFB14, [0x544, 0x535]),
   (0xFB15, [0x544, 0x53B]), (0xFB16, [0x54E, 0x546]), (0xFB17, [0x544, 0x53D])
  ]

/-- The upper case of one code point: its image in the run that holds it,
else its special mapping, else itself. -/
def upperChar (c : Char) : List Char :=
  match upperCaseRuns.find? (fun r =>
      decide (r.1 ≤ c.toNat ∧ c.toNat ≤ r.2.1 ∧ (c.toNat - r.1) % r.2.2.1 = 0)) with
  | some r => [Char.ofNat (r.2.2.2 + (c.toNat - r.1))]
  | none =>
    match upperCaseSpecial.lookup c.toNat with
    | some cs => cs.map Char.ofNat
    | none => [c]

/-- The method `String.prototype.toUpperCase`. -/
def toUpperCase (s : String) : String :=
  String.mk (s.toList.map upperChar).flatten

namespace JsVal

/-- ToBoolean: `undefined`, `null`, `false`, `0`, `NaN` and the empty string
are falsy, everything else is truthy. -/
def truthy : JsVal → Bool
  | undefined => false
  | null => false
  | bool b => b
  | num n => n.truthy
  | str s => decide (s ≠ "")
  | obj => true

/-- The operator `a || b`. -/
def or (a b : JsVal) : JsVal := if a.truthy then a else b

/-- ToNumber. -/
def toNumber : JsVal → JsNum
  | undefined => .nan
  | null => .fin 0
  | bool b => .fin (if b then 1 else 0)
  | num n => n
  | str s => stringToNumber s
  | obj => .nan

/-- The global function `parseInt(v)`. -/
def parseInt : JsVal → JsNum
  | str s => parseIntString s
  | num (.fin q) => .fin (parseIntNumber q)
  | _ => .nan

/-- The method call `v.toUpperCase()`: defined on strings only, a
`TypeError` (here `none`) on every other value. -/
def toUpperCase? : JsVal → Option String
  | str s => some (toUpperCase s)
  | _ => none

end JsVal

/-! ## In-memory storage and mock market data -/

/-- The object literal `mockPrices`, in insertion order; each numeric literal
denotes the binary64 value nearest to it. -/
def mockPrices : List (String × ℚ) :=
  [("RELIANCE", nearestDouble 2850.75), ("TCS", nearestDouble 3420.50),
   ("HDFC", nearestDouble 1650.25), ("INFY", nearestDouble 1890.80),
   ("ICICIBANK", nearestDouble 1050.30), ("SBIN", nearestDouble 720.45),
   ("BHARTIARTL", nearestDouble 1180.90), ("ITC", nearestDouble 285.60),
   ("KOTAKBANK", nearestDouble 1890.75), ("LT", nearestDouble 3450.20)]

/-- The members every object literal inherits from `Object.prototype`. -/
def objectPrototypeMembers : List String :=
  ["constructor", "__defineGetter__", "__defineSetter__", "hasOwnProperty",
   "__lookupGetter__", "__lookupSetter__", "isPrototypeOf",
   "propertyIsEnumerable", "toString", "valueOf", "__proto__",
   "toLocaleString"]

/-- The member access `mockPrices[key]`: the price of an own key, the
inherited member for a name of `Object.prototype`, and `undefined`
otherwise.  A key that is not a string is first converted to one, and no
such conversion yields a name that is present. -/
def mockPricesGet : JsVal → JsVal
  | .str k =>
    match mockPrices.lookup k with
    | some p => .num (.fin p)
    | none => if k ∈ objectPrototypeMembers then .obj else .undefined
  | _ => .undefined

/-- The outcome of the optional bearer credential: no `authorization`
header, a token that `jwt.verify` accepts (with the `userId` of its
payload), or one that makes `jwt.verify` throw. -/
inductive Auth where
  | absent
  | verified (userId : String)
  | rejected
  deriving DecidableEq, Repr

/-- The expression
`req.headers.authorization ? jwt.verify(...).userId : 'demo'`;
`none` when it throws. -/
def resolveUserId : Auth → Option String
  | .absent => some "demo"
  | .verified u => some u
  | .rejected => none

/-- An element of the array `orders`. -/
structure Order where
  id : String
  userId : String
  symbol : String
  type : String
  quantity : JsNum
  price : JsVal
  status : String
  createdAt : Nat
  executedAt : Nat
  deriving DecidableEq, Repr

/-- The map `balances`: `none` where the map has no entry. -/
abbrev Balances := String → Option JsNum

/-- The process-wide mutable state the handlers touch. -/
structure State where
  orders : List Order
  balances : Balances

/-- The state at process start: `orders = []`, `balances = new Map()`. -/
def State.initial : State := ⟨[], fun _ => none⟩

/-- The call `balances.set(userId, value)`. -/
def Balances.set (b : Balances) (userId : String) (value : JsNum) : Balances :=
  fun u => if u = userId then some value else b u

/-- The expression `balances.get(userId) || 100000`. -/
def currentBalance (b : Balances) (userId : String) : JsNum :=
  match b userId with
  | some v => if v.truthy then v else .fin 100000
  | none => .fin 100000

/-- What a handler sends: `res.json(...)` with a payload, or a failure with
status 400 or 500 and its `error` text. -/
inductive Response (α : Type) where
  | ok (data : α)
  | badRequest (error : String)
  | serverError (error : String)
  deriving DecidableEq, Repr

/-- The fields of `req.body` the order route destructures; a field that is
absent is `undefined`. -/
structure OrderRequest where
  symbol : JsVal
  type : JsVal
  quantity : JsVal
  price : JsVal
  deriving DecidableEq, Repr

/-- The values the order route takes from its environment: the result of
`generateId()` and of the two `new Date()` calls. -/
structure Env where
  id : String
  createdAt : Nat
  executedAt : Nat
  deriving DecidableEq, Repr

/-! ## Route handlers -/

/-- The payload of `GET /api/funds/balance`. -/
structure FundsData where
  availableBalance : JsNum
  totalBalance : JsNum
  usedMargin : JsNum
  availableMargin : JsNum
  currency : String
  deriving DecidableEq, Repr

/-- The handler of `GET /api/funds/balance`. -/
def getFundsBalance (s : State) (auth : Auth) : Response FundsData × State :=
  match resolveUserId auth with
  | none => (.serverError "Failed to fetch balance", s)
  | some userId =>
    let balance := currentBalance s.balances userId
    (.ok { availableBalance := balance, totalBalance := balance,
           usedMargin := .fin 0, availableMargin := balance,
           currency := "INR" }, s)

/-- The field `availableBalance` of a successful balance read. -/
def reportedBalance (s : State) (auth : Auth) : Option JsNum :=
  match (getFundsBalance s auth).1 with
  | .ok d => some d.availableBalance
  | _ => none

/-- The local `orderPrice`: `price || mockPrices[symbol] || 100`. -/
def orderPrice (body : OrderRequest) : JsVal :=
  (body.price.or (mockPricesGet body.symbol)).or (.num (.fin 100))

/-- The local `orderValue`: `quantity * orderPrice`. -/
def orderValue (body : OrderRequest) : JsNum :=
  body.quantity.toNumber.mul (orderPrice body).toNumber

/-- The handler of `POST /api/order/paper`. -/
def placeOrder (s : State) (auth : Auth) (body : OrderRequest) (env : Env) :
    Response Order × State :=
  if !body.symbol.truthy || !body.type.truthy || !body.quantity.truthy then
    (.badRequest "Symbol, type, and quantity are required", s)
  else
    match resolveUserId auth with
    | none => (.serverError "Order placement failed", s)
    | some userId =>
      let balance := currentBalance s.balances userId
      if body.type = .str "BUY" ∧ (orderValue body).gt balance = true then
        (.badRequest "Insufficient balance", s)
      else
        match body.symbol.toUpperCase?, body.type.toUpperCase? with
        | some symbol, some type =>
          let order : Order :=
            { id := env.id, userId := userId, symbol := symbol, type := type,
              quantity := body.quantity.parseInt, price := orderPrice body,
              status := "EXECUTED", createdAt := env.createdAt,
              executedAt := env.executedAt }
          let balances :=
            if body.type = .str "BUY" then
              s.balances.set userId (balance.sub (orderValue body))
            else
              s.balances.set userId (balance.add (orderValue body))
          (.ok order, { orders := s.orders ++ [order], balances := balances })
        | _, _ => (.serverError "Order placement failed", s)

/-- The handler of `GET /api/market/prices`. -/
def getMarketPrices (s : State) : Response (List (String × ℚ)) × State :=
  (.ok mockPrices, s)

/-- The direction of a signal. -/
inductive Direction where
  | BUY
  | SELL
  deriving DecidableEq, Repr

/-- The text of a direction, as interpolated into `reasoning`. -/
def Direction.text : Direction → String
  | .BUY => "BUY"
  | .SELL => "SELL"

/-- The object `entrySignal`. -/
structure Signal where
  id : String
  symbol : String
  signal : Direction
  price : ℚ
  confidence : Int
  targetPrice : ℚ
  stopLoss : ℚ
  reasoning : String
  validity : String
  deriving DecidableEq, Repr

/-- The element `symbols[Math.floor(r * symbols.length)]` of
`Object.keys(mockPrices)` with its price; `none` when the index is out of
range, which no draw `0 ≤ r < 1` produces. -/
def pickSymbol (r : ℚ) : Option (String × ℚ) :=
  let i := Int.floor (r * (mockPrices.length : ℚ))
  if 0 ≤ i then mockPrices.get? i.toNat else none

/-- The handler of `GET /api/signal/entry`, on the three values that
`Math.random()` returns in it, in call order, and the generated id. -/
def getSignalEntry (s : State) (r1 r2 r3 : ℚ) (id : String) :
    Option (Response Signal) × State :=
  match pickSymbol r1 with
  | none => (none, s)
  | some (randomSymbol, price) =>
    let signal := if r2 > 0.5 then Direction.BUY else Direction.SELL
    (some (.ok
      { id := id, symbol := randomSymbol, signal := signal, price := price,
        confidence := Int.floor (r3 * 40) + 60,
        targetPrice := if signal = .BUY then price * 1.03 else price * 0.97,
        stopLoss := if signal = .BUY then price * 0.98 else price * 1.02,
        reasoning := "Technical analysis suggests " ++ signal.text ++
          " signal based on momentum indicators",
        validity := "1 hour" }), s)

/-! ## Request sequences -/

/-- A request to one of the four routes, with the inputs its handler reads. -/
inductive Request where
  | order (auth : Auth) (body : OrderRequest) (env : Env)
  | fundsBalance (auth : Auth)
  | signalEntry (r1 r2 r3 : ℚ) (id : String)
  | marketPrices

/-- The state after a request is handled. -/
def step (s : State) : Request → State
  | .order auth body env => (placeOrder s auth body env).2
  | .fundsBalance auth => (getFundsBalance s auth).2
  | .signalEntry r1 r2 r3 id => (getSignalEntry s r1 r2 r3 id).2
  | .marketPrices => (getMarketPrices s).2

/-- The state after a sequence of requests, handled one after the other. -/
def run (s : State) (rs : List Request) : State := rs.foldl step s

/-- A number is finite and strictly positive. -/
def JsNum.positive : JsNum → Bool
  | .fin q => decide (0 < q)
  | _ => false

/-- An order body whose quantity is a positive number (a positive integer in
particular) and whose execution price is positive. -/
def OrderRequest.positive (body : OrderRequest) : Bool :=
  body.quantity.toNumber.positive && (orderPrice body).toNumber.positive

/-- Every order request of the sequence is positive; the reads are
unconstrained. -/
def Request.positive : Request → Bool
  | .order _ body _ => body.positive
  | _ => true

/-- The test `v >= 0`: a number that is not negative, finite or
`+Infinity`; false for `NaN`. -/
def JsNum.nonNegative : JsNum → Bool
  | .fin q => decide (0 ≤ q)
  | .posInf => true
  | _ => false

/-- The test `v < 0`: a negative number, finite or `-Infinity`; false for
`NaN`. -/
def JsNum.isNegative : JsNum → Bool
  | .fin q => decide (q < 0)
  | .negInf => true
  | _ => false

/-- No balance the ledger holds is negative. -/
def NeverNegativeLedger (s : State) : Prop :=
  ∀ u v, s.balances u = some v → v.isNegative = false

/-! ## Auxiliary definitions for the statements -/

/-- The record the order route builds for a resolved user and string-valued
symbol and type. -/
def orderRecord (userId k t : String) (body : OrderRequest) (env : Env) : Order :=
  { id := env.id, userId := userId, symbol := toUpperCase k, type := toUpperCase t,
    quantity := body.quantity.parseInt, price := orderPrice body,
    status := "EXECUTED", createdAt := env.createdAt,
    executedAt := env.executedAt }

/-- The ledger the order route leaves behind when it executes an order. -/
def ledgerAfter (s : State) (userId : String) (body : OrderRequest) : Balances :=
  if body.type = .str "BUY" then
    s.balances.set userId ((currentBalance s.balances userId).sub (orderValue body))
  else
    s.balances.set userId ((currentBalance s.balances userId).add (orderValue body))

/-! ## Sample inputs -/

/-- An environment for the sample requests. -/
def sampleEnv : Env := ⟨"1730000000000k3j9x2m1q", 1730000000000, 1730000000000⟩

/-- The request `{symbol: "TCS", type: "BUY", quantity: 10}`. -/
def buyTenTcs : OrderRequest :=
  ⟨.str "TCS", .str "BUY", .num (.fin 10), .undefined⟩

/-- The request `{symbol: "TCS", type: "BUY", quantity: 30}`, worth 102615. -/
def buyThirtyTcs : OrderRequest :=
  ⟨.str "TCS", .str "BUY", .num (.fin 30), .undefined⟩

/-- The request `{symbol: "ITC", type: "BUY", quantity: 1000, price: 100}`,
worth exactly the default balance. -/
def buyWholeBalance : OrderRequest :=
  ⟨.str "ITC", .str "BUY", .num (.fin 1000), .num (.fin 100)⟩

/-- The request `{symbol: "TCS", type: "BUY", quantity: -5}`. -/
def buyMinusFiveTcs : OrderRequest :=
  ⟨.str "TCS", .str "BUY", .num (.fin (-5)), .undefined⟩

/-- The request `{symbol: "TCS", type: "SELL", quantity: 1, price: -5}`. -/
def sellAtMinusFive : OrderRequest :=
  ⟨.str "TCS", .str "SELL", .num (.fin 1), .num (.fin (-5))⟩

/-- The request `{symbol: "INFY", type: "SELL", quantity: 5}`. -/
def sellFiveInfy : OrderRequest :=
  ⟨.str "INFY", .str "SELL", .num (.fin 5), .undefined⟩

/-- The request `{symbol: "TCS", type: "buy", quantity: 30}`, worth 102615. -/
def lowerCaseBuy : OrderRequest :=
  ⟨.str "TCS", .str "buy", .num (.fin 30), .undefined⟩

/-- The request `{symbol: "HDFC", type: "SELL", quantity: 4}`, worth 6601. -/
def sellFourHdfc : OrderRequest :=
  ⟨.str "HDFC", .str "SELL", .num (.fin 4), .undefined⟩

/-- The request `{symbol: "HDFC", type: "SELL", quantity: -1, price: 106601}`,
worth `-106601`. -/
def sellMinusOneHdfc : OrderRequest :=
  ⟨.str "HDFC", .str "SELL", .num (.fin (-1)), .num (.fin 106601)⟩

/-- The request `{symbol: "TCS", type: "SELL", quantity: 8.98846567431158e307}`;
the quantity is the binary64 value `2 ^ 1023`, a positive integer. -/
def sellHugeTcs : OrderRequest :=
  ⟨.str "TCS", .str "SELL", .num (.fin (2 ^ 1023)), .undefined⟩

/-- The request `{symbol: "TCS", type: "BUY", quantity: 8.98846567431158e307}`. -/
def buyHugeTcs : OrderRequest :=
  ⟨.str "TCS", .str "BUY", .num (.fin (2 ^ 1023)), .undefined⟩

/-- The request `{symbol: "ITC", type: "BUY", quantity: 3,
price: 33333.333333333336}`; the price is the binary64 value
`4581298449066667 / 2 ^ 37`, so the exact product is `100000 + 2 ^ (-37)`. -/
def buyThreeAtThird : OrderRequest :=
  ⟨.str "ITC", .str "BUY", .num (.fin 3), .num (.fin (4581298449066667 / 2 ^ 37))⟩

/-- The request `{symbol: "straße", type: "SELL", quantity: 1, price: 1}`. -/
def sellStrasse : OrderRequest :=
  ⟨.str "straße", .str "SELL", .num (.fin 1), .num (.fin 1)⟩

/-- The state after a fresh guest spends the whole balance: the ledger holds
0 for `demo`. -/
def emptiedState : State :=
  run State.initial [.order .absent buyWholeBalance sampleEnv]

/-- The state after a fresh guest sells `-1` HDFC at 106601: the ledger holds
`-6601` for `demo`. -/
def overdrawnState : State :=
  run State.initial [.order .absent sellMinusOneHdfc sampleEnv]

/-- A sale and a purchase of `2 ^ 1023` TCS by the guest, both with a positive
integer quantity and the positive table price. -/
def overflowRequests : List Request :=
  [.order .absent sellHugeTcs sampleEnv, .order .absent buyHugeTcs sampleEnv]

/-! ## Rounding lemmas -/

theorem roundHalfEven_intCast (n : ℤ) : roundHalfEven (n : ℚ) = n := by
  simp [roundHalfEven]

theorem floor_le_roundHalfEven (x : ℚ) : Int.floor x ≤ roundHalfEven x := by
  unfold roundHalfEven
  simp only
  split_ifs <;> omega

theorem roundHalfEven_nonneg {x : ℚ} (h : 0 ≤ x) : 0 ≤ roundHalfEven x :=
  le_trans (Int.floor_nonneg.mpr h) (floor_le_roundHalfEven x)

theorem nearestDouble_nonneg {q : ℚ} (h : 0 ≤ q) : 0 ≤ nearestDouble q := by
  unfold nearestDouble
  have hu : (0 : ℚ) < (2 : ℚ) ^ ulpExponent |q| := by positivity
  have : (0 : ℚ) ≤ (roundHalfEven (q / (2 : ℚ) ^ ulpExponent |q|) : ℚ) := by
    exact_mod_cast roundHalfEven_nonneg (div_nonneg h hu.le)
  positivity

theorem ulpExponent_le {a : ℚ} {e : ℤ} (ha : 0 < a) (hlt : a < (2 : ℚ) ^ (e + 53))
    (he : -1074 ≤ e) : ulpExponent a ≤ e := by
  unfold ulpExponent
  have h1 : Int.log 2 a < e + 53 := by
    have := (Int.lt_zpow_iff_log_lt (b := 2) (by norm_num) ha (x := e + 53)).mp
      (by exact_mod_cast hlt)
    exact this
  have : max (Int.log 2 a) (-1022) ≤ e + 52 := max_le (by omega) (by omega)
  omega

theorem nearestDouble_exact (z e : ℤ) (hz : |z| < 2 ^ 53) (he : -1074 ≤ e) :
    nearestDouble ((z : ℚ) * (2 : ℚ) ^ e) = (z : ℚ) * (2 : ℚ) ^ e := by
  by_cases hz0 : z = 0
  · subst hz0
    simp [nearestDouble, roundHalfEven]
  have h2 : (0 : ℚ) < (2 : ℚ) ^ e := by positivity
  have habs : |(z : ℚ) * (2 : ℚ) ^ e| = (|z| : ℤ) * (2 : ℚ) ^ e := by
    rw [abs_mul, abs_of_pos h2]; push_cast; rfl
  have hpos : 0 < |(z : ℚ) * (2 : ℚ) ^ e| := by
    rw [habs]
    have : (0 : ℚ) < ((|z| : ℤ) : ℚ) := by exact_mod_cast abs_pos.mpr hz0
    positivity
  have hlt : |(z : ℚ) * (2 : ℚ) ^ e| < (2 : ℚ) ^ (e + 53) := by
    rw [habs, zpow_add₀ (by norm_num : (2 : ℚ) ≠ 0), mul_comm ((2 : ℚ) ^ e)]
    have : ((|z| : ℤ) : ℚ) < (2 : ℚ) ^ (53 : ℤ) := by exact_mod_cast hz
    exact mul_lt_mul_of_pos_right this h2
  have hu := ulpExponent_le hpos hlt he
  unfold nearestDouble
  set u := ulpExponent |(z : ℚ) * (2 : ℚ) ^ e| with hudef
  obtain ⟨k, hk⟩ := Int.eq_ofNat_of_zero_le (sub_nonneg.mpr hu)
  have he' : e = u + k := by omega
  have hdiv : (z : ℚ) * (2 : ℚ) ^ e / (2 : ℚ) ^ u = ((z * 2 ^ k : ℤ) : ℚ) := by
    rw [he', zpow_add₀ (by norm_num : (2 : ℚ) ≠ 0)]
    have hu0 : (2 : ℚ) ^ u ≠ 0 := by positivity
    field_simp
    ring
  rw [hdiv, roundHalfEven_intCast]
  rw [he', zpow_add₀ (by norm_num : (2 : ℚ) ≠ 0)]
  push_cast
  rw [zpow_natCast]
  ring

theorem zpow_log_le_nearestDouble {q : ℚ} (hq : 0 < q)
    (hL : -1022 ≤ Int.log 2 q) : (2 : ℚ) ^ Int.log 2 q ≤ nearestDouble q := by
  unfold nearestDouble
  rw [abs_of_pos hq]
  have hue : ulpExponent q = Int.log 2 q - 52 := by
    unfold ulpExponent; rw [max_eq_left hL]
  rw [hue]
  set L := Int.log 2 q
  have hle : (2 : ℚ) ^ L ≤ q := by
    have := Int.zpow_log_le_self (b := 2) (r := q) (by norm_num) hq
    exact_mod_cast this
  have hu : (0 : ℚ) < (2 : ℚ) ^ (L - 52) := by positivity
  have hx : ((2 ^ 52 : ℤ) : ℚ) ≤ q / (2 : ℚ) ^ (L - 52) := by
    rw [le_div_iff₀ hu]
    have : ((2 ^ 52 : ℤ) : ℚ) * (2 : ℚ) ^ (L - 52) = (2 : ℚ) ^ L := by
      rw [zpow_sub₀ (by norm_num : (2 : ℚ) ≠ 0)]
      push_cast
      field_simp
      ring
    rw [this]; exact hle
  have hf : (2 ^ 52 : ℤ) ≤ roundHalfEven (q / (2 : ℚ) ^ (L - 52)) :=
    le_trans (Int.le_floor.mpr hx) (floor_le_roundHalfEven _)
  have hf' : ((2 ^ 52 : ℤ) : ℚ) ≤ (roundHalfEven (q / (2 : ℚ) ^ (L - 52)) : ℚ) := by
    exact_mod_cast hf
  calc (2 : ℚ) ^ L = ((2 ^ 52 : ℤ) : ℚ) * (2 : ℚ) ^ (L - 52) := by
        rw [zpow_sub₀ (by norm_num : (2 : ℚ) ≠ 0)]
        push_cast
        field_simp
        ring
    _ ≤ _ := mul_le_mul_of_nonneg_right hf' hu.le

theorem roundDouble_exact (z e : ℤ) (hlo : -2 ^ 53 < z) (hhi : z < 2 ^ 53)
    (he : -1074 ≤ e) (he2 : e ≤ 971) :
    roundDouble ((z : ℚ) * (2 : ℚ) ^ e) = .fin ((z : ℚ) * (2 : ℚ) ^ e) := by
  have hz : |z| < 2 ^ 53 := abs_lt.mpr ⟨hlo, hhi⟩
  have hb : |(z : ℚ) * (2 : ℚ) ^ e| < (2 : ℚ) ^ 1024 := by
    have h2 : (0 : ℚ) < (2 : ℚ) ^ e := by positivity
    rw [abs_mul, abs_of_pos h2]
    have h1 : |(z : ℚ)| < (2 : ℚ) ^ 53 := by exact_mod_cast hz
    have h3 : (2 : ℚ) ^ e ≤ (2 : ℚ) ^ (971 : ℤ) :=
      zpow_le_zpow_right₀ (by norm_num) he2
    calc |(z : ℚ)| * (2 : ℚ) ^ e < (2 : ℚ) ^ 53 * (2 : ℚ) ^ e :=
          mul_lt_mul_of_pos_right h1 h2
      _ ≤ (2 : ℚ) ^ 53 * (2 : ℚ) ^ (971 : ℤ) :=
          mul_le_mul_of_nonneg_left h3 (by positivity)
      _ = (2 : ℚ) ^ 1024 := by norm_num
  obtain ⟨hb1, hb2⟩ := abs_lt.mp hb
  unfold roundDouble
  rw [nearestDouble_exact z e hz he, if_neg (not_le.mpr hb2), if_neg (not_le.mpr hb1)]

theorem roundDouble_intCast (z : ℤ) (hlo : -2 ^ 53 < z) (hhi : z < 2 ^ 53) :
    roundDouble (z : ℚ) = .fin (z : ℚ) := by
  simpa using roundDouble_exact z 0 hlo hhi (by norm_num) (by norm_num)

theorem roundDouble_half (z : ℤ) (hlo : -2 ^ 53 < z) (hhi : z < 2 ^ 53) :
    roundDouble ((z : ℚ) / 2) = .fin ((z : ℚ) / 2) := by
  have h := roundDouble_exact z (-1) hlo hhi (by norm_num) (by norm_num)
  have e : (z : ℚ) * (2 : ℚ) ^ (-1 : ℤ) = (z : ℚ) / 2 := by
    rw [zpow_neg_one]; rfl
  rwa [e] at h

theorem nearestDouble_pos_of_one_le {q : ℚ} (h : 1 ≤ q) : 0 < nearestDouble q := by
  have hq : 0 < q := lt_of_lt_of_le one_pos h
  have hL : (0 : ℤ) ≤ Int.log 2 q :=
    (Int.zpow_le_iff_le_log (b := 2) (by norm_num) hq).mp (by simpa using h)
  have := zpow_log_le_nearestDouble hq (by omega)
  exact lt_of_lt_of_le (by positivity) this

theorem roundDouble_overflow {q : ℚ} (h : (2 : ℚ) ^ 1024 ≤ q) :
    roundDouble q = .posInf := by
  have hq : 0 < q := lt_of_lt_of_le (pow_pos (by norm_num) 1024) h
  have hL : ((1024 : ℕ) : ℤ) ≤ Int.log 2 q :=
    (Int.zpow_le_iff_le_log (b := 2) (by norm_num) hq).mp (by
      refine le_trans (le_of_eq ?_) h
      rw [zpow_natCast, Nat.cast_ofNat])
  have h1 := zpow_log_le_nearestDouble hq (by omega)
  have h2 : (2 : ℚ) ^ ((1024 : ℕ) : ℤ) ≤ (2 : ℚ) ^ Int.log 2 q :=
    zpow_le_zpow_right₀ (by norm_num) hL
  rw [zpow_natCast] at h2
  have h3 : (2 : ℚ) ^ 1024 ≤ nearestDouble q := le_trans h2 h1
  simp [roundDouble, h3]

theorem roundDouble_nonneg {q : ℚ} (h : 0 ≤ q) : (roundDouble q).nonNegative = true := by
  have hn := nearestDouble_nonneg h
  unfold roundDouble
  split_ifs with h1 h2
  · rfl
  · exfalso
    have : (0 : ℚ) < (2 : ℚ) ^ 1024 := by positivity
    linarith
  · simpa [JsNum.nonNegative] using hn

theorem nonNegative_not_isNegative {v : JsNum} (h : v.nonNegative = true) :
    v.isNegative = false := by
  cases v <;> simp_all [JsNum.nonNegative, JsNum.isNegative]

theorem roundDouble_of_eq {q : ℚ} (z e : ℤ) (h : q = (z : ℚ) * (2 : ℚ) ^ e)
    (hlo : -2 ^ 53 < z) (hhi : z < 2 ^ 53) (he : -1074 ≤ e) (he2 : e ≤ 971) :
    roundDouble q = .fin q := by
  rw [h]; exact roundDouble_exact z e hlo hhi he he2

theorem nearestDouble_of_eq {q : ℚ} (z e : ℤ) (h : q = (z : ℚ) * (2 : ℚ) ^ e)
    (hlo : -2 ^ 53 < z) (hhi : z < 2 ^ 53) (he : -1074 ≤ e) :
    nearestDouble q = q := by
  rw [h]; exact nearestDouble_exact z e (abs_lt.mpr ⟨hlo, hhi⟩) he

theorem log_two_eq {q : ℚ} {L : ℤ} (hq : 0 < q) (h1 : (2 : ℚ) ^ L ≤ q)
    (h2 : q < (2 : ℚ) ^ (L + 1)) : Int.log 2 q = L := by
  have a : L ≤ Int.log 2 q :=
    (Int.zpow_le_iff_le_log (b := 2) (by norm_num) hq).mp (by exact_mod_cast h1)
  have b : Int.log 2 q < L + 1 :=
    (Int.lt_zpow_iff_log_lt (b := 2) (by norm_num) hq).mp (by exact_mod_cast h2)
  omega

theorem roundHalfEven_tie_even (n : ℤ) (hn : n % 2 = 0) :
    roundHalfEven ((n : ℚ) + 1 / 2) = n := by
  have hf : Int.floor ((n : ℚ) + 1 / 2) = n := by
    rw [Int.floor_eq_iff]; constructor <;> norm_num
  unfold roundHalfEven
  simp only [hf]
  norm_num [hn]

theorem roundHalfEven_of_close (x : ℚ) (n : ℤ) (h : |x - (n : ℚ)| < 1 / 2) :
    roundHalfEven x = n := by
  obtain ⟨h1, h2⟩ := abs_lt.mp h
  unfold roundHalfEven
  by_cases hx : (n : ℚ) ≤ x
  · have hf : Int.floor x = n := by
      rw [Int.floor_eq_iff]; constructor <;> linarith
    simp only [hf]
    rw [if_pos (by linarith)]
  · have hf : Int.floor x = n - 1 := by
      rw [Int.floor_eq_iff]; push_cast; constructor <;> linarith
    simp only [hf]
    push_cast
    rw [if_neg (by linarith), if_pos (by linarith)]
    ring

/-! ## The order route, case by case -/

theorem toUpperCase?_eq_some {v : JsVal} {r : String}
    (h : v.toUpperCase? = some r) : ∃ k, v = .str k ∧ r = toUpperCase k := by
  cases v <;> simp [JsVal.toUpperCase?] at h
  exact ⟨_, rfl, h.symm⟩

theorem placeOrder_executes (s : State) (auth : Auth) (body : OrderRequest)
    (env : Env) (userId k t : String)
    (hu : resolveUserId auth = some userId)
    (hs : body.symbol = .str k) (hk : k ≠ "")
    (ht : body.type = .str t) (htne : t ≠ "")
    (hq : body.quantity.truthy = true)
    (hafford : ¬ (t = "BUY" ∧
      (orderValue body).gt (currentBalance s.balances userId) = true)) :
    placeOrder s auth body env =
      (.ok (orderRecord userId k t body env),
       ⟨s.orders ++ [orderRecord userId k t body env], ledgerAfter s userId body⟩) := by
  have hafford2 : ¬ (body.type = JsVal.str "BUY" ∧
      (orderValue body).gt (currentBalance s.balances userId) = true) := by
    simpa [ht] using hafford
  have hv : (!body.symbol.truthy || !body.type.truthy || !body.quantity.truthy) = false := by
    rw [hs, ht, hq]; simp [JsVal.truthy, hk, htne]
  have hsu : body.symbol.toUpperCase? = some (toUpperCase k) := by simp [hs, JsVal.toUpperCase?]
  have htu : body.type.toUpperCase? = some (toUpperCase t) := by simp [ht, JsVal.toUpperCase?]
  simp only [placeOrder, hv, hu, hafford2, hsu, htu, Bool.false_eq_true, if_false]
  rfl

theorem placeOrder_ok_inv (s s2 : State) (auth : Auth) (body : OrderRequest)
    (env : Env) (o : Order) (h : placeOrder s auth body env = (.ok o, s2)) :
    ∃ userId k t, resolveUserId auth = some userId ∧ body.symbol = .str k ∧
      body.type = .str t ∧ body.quantity.truthy = true ∧
      ¬ (t = "BUY" ∧
        (orderValue body).gt (currentBalance s.balances userId) = true) ∧
      o = orderRecord userId k t body env ∧
      s2 = ⟨s.orders ++ [orderRecord userId k t body env], ledgerAfter s userId body⟩ := by
  cases hv : (!body.symbol.truthy || !body.type.truthy || !body.quantity.truthy) with
  | true => simp only [placeOrder, hv, if_true, Prod.mk.injEq] at h; simp at h
  | false =>
  have hv2 := hv
  simp only [Bool.or_eq_false_iff, Bool.not_eq_false'] at hv2
  cases hu : resolveUserId auth with
  | none => simp only [placeOrder, hv, hu, Bool.false_eq_true, if_false, Prod.mk.injEq] at h; simp at h
  | some userId =>
    simp only [placeOrder, hv, hu, Bool.false_eq_true, if_false] at h
    by_cases ha : body.type = JsVal.str "BUY" ∧
        (orderValue body).gt (currentBalance s.balances userId) = true
    · rw [if_pos ha] at h
      simp at h
    rw [if_neg ha] at h
    cases hsu : body.symbol.toUpperCase? with
    | none =>
      simp only [hsu, Prod.mk.injEq] at h
      simp at h
    | some symbol =>
      cases htu : body.type.toUpperCase? with
      | none =>
        simp only [hsu, htu, Prod.mk.injEq] at h
        simp at h
      | some type =>
        obtain ⟨k, hk, rfl⟩ := toUpperCase?_eq_some hsu
        obtain ⟨t, ht, rfl⟩ := toUpperCase?_eq_some htu
        simp only [hsu, htu, Prod.mk.injEq, Response.ok.injEq] at h
        refine ⟨userId, k, t, rfl, hk, ht, hv2.2, ?_, ?_, ?_⟩
        · simpa [ht] using ha
        · rw [← h.1]; rfl
        · rw [← h.2]; rfl

theorem placeOrder_unchanged_or_ok (s : State) (auth : Auth)
    (body : OrderRequest) (env : Env) :
    ((placeOrder s auth body env).2 = s ∧
        ∀ o, (placeOrder s auth body env).1 ≠ .ok o) ∨
      ∃ o s2, placeOrder s auth body env = (.ok o, s2) := by
  cases hv : (!body.symbol.truthy || !body.type.truthy || !body.quantity.truthy) with
  | true => left; simp only [placeOrder, hv, if_true]; simp
  | false =>
  cases hu : resolveUserId auth with
  | none => left; simp only [placeOrder, hv, hu, Bool.false_eq_true, if_false]; simp
  | some userId =>
    simp only [placeOrder, hv, hu, Bool.false_eq_true, if_false]
    by_cases ha : body.type = JsVal.str "BUY" ∧
        (orderValue body).gt (currentBalance s.balances userId) = true
    · left; rw [if_pos ha]; simp
    rw [if_neg ha]
    cases hsu : body.symbol.toUpperCase? with
    | none => left; simp
    | some symbol =>
      cases htu : body.type.toUpperCase? with
      | none => left; simp
      | some type => right; exact ⟨_, _, rfl⟩

/-! ## Arithmetic, ledger and price table lemmas -/

theorem truthy_of_toNumber_ne_zero {v : JsVal} {q : ℚ}
    (h : v.toNumber = .fin q) (hq : q ≠ 0) : v.truthy = true := by
  cases v with
  | undefined => simp [JsVal.toNumber] at h
  | null => simp [JsVal.toNumber] at h; exact absurd h.symm hq
  | bool b =>
    cases b
    · simp [JsVal.toNumber] at h; exact absurd h.symm hq
    · rfl
  | num n =>
    simp only [JsVal.toNumber] at h
    subst h
    simp [JsVal.truthy, JsNum.truthy, hq]
  | str s =>
    simp only [JsVal.truthy, ne_eq, decide_eq_true_eq]
    rintro rfl
    have : stringToNumber "" = .fin 0 := rfl
    simp only [JsVal.toNumber, this, JsNum.fin.injEq] at h
    exact hq h.symm
  | obj => rfl

theorem currentBalance_set_self (b : Balances) (u : String) (v : JsNum) :
    currentBalance (b.set u v) u = if v.truthy then v else .fin 100000 := by
  simp [currentBalance, Balances.set]

theorem mem_of_lookup_eq_some {k : String} {p : ℚ} :
    ∀ {l : List (String × ℚ)}, l.lookup k = some p → (k, p) ∈ l
  | [], h => by simp at h
  | (a, b) :: l, h => by
    by_cases hka : k = a
    · subst hka
      simp [List.lookup] at h
      simp [h]
    · have hne : (k == a) = false := by simpa using hka
      simp only [List.lookup, hne] at h
      exact List.mem_cons_of_mem _ (mem_of_lookup_eq_some h)

theorem positive_iff {v : JsNum} : v.positive = true ↔ ∃ b, 0 < b ∧ v = .fin b := by
  cases v <;> simp [JsNum.positive]

theorem pickSymbol_some (r : ℚ) (h0 : 0 ≤ r) (h1 : r < 1) :
    ∃ e, pickSymbol r = some e ∧ e ∈ mockPrices := by
  have hlen : (mockPrices.length : ℚ) = 10 := by simp [mockPrices]
  have hi0 : 0 ≤ Int.floor (r * (mockPrices.length : ℚ)) := by
    apply Int.floor_nonneg.mpr
    rw [hlen]; linarith
  have hi1 : Int.floor (r * (mockPrices.length : ℚ)) < 10 := by
    apply Int.floor_lt.mpr
    rw [hlen]; push_cast; linarith
  have hlt : (Int.floor (r * (mockPrices.length : ℚ))).toNat < mockPrices.length := by
    have : mockPrices.length = 10 := by simp [mockPrices]
    omega
  refine ⟨mockPrices.get ⟨_, hlt⟩, ?_, List.get_mem _ _ _⟩
  simp only [pickSymbol, hi0, if_true]
  exact List.get?_eq_get hlt

theorem orderValue_of_fin {body : OrderRequest} {q p : ℚ}
    (hq : body.quantity.toNumber = .fin q)
    (hp : (orderPrice body).toNumber = .fin p) :
    orderValue body = roundDouble (q * p) := by
  simp [orderValue, hq, hp, JsNum.mul]

theorem mockPrices_pos {k : String} {p : ℚ} (h : (k, p) ∈ mockPrices) : 0 < p := by
  simp only [mockPrices, List.mem_cons, Prod.mk.injEq, List.mem_singleton] at h
  rcases h with h | h | h | h | h | h | h | h | h | h | h
  all_goals first
    | (obtain ⟨-, rfl⟩ := h; exact nearestDouble_pos_of_one_le (by norm_num))
    | simp at h

theorem nonNegative_cases {v : JsNum} (h : v.nonNegative = true) :
    v = .posInf ∨ ∃ b, 0 ≤ b ∧ v = .fin b := by
  cases v <;> simp_all [JsNum.nonNegative]

theorem currentBalance_nonNegative {s : State} (hs : NeverNegativeLedger s)
    (u : String) : (currentBalance s.balances u).nonNegative = true := by
  unfold currentBalance
  cases hb : s.balances u with
  | none => simp [JsNum.nonNegative]
  | some v =>
    have hv := hs u v hb
    by_cases ht : v.truthy = true
    · simp only [ht, if_true]
      cases v <;> simp_all [JsNum.nonNegative, JsNum.isNegative, JsNum.truthy]
    · simp [ht, JsNum.nonNegative]

theorem set_neverNegative {s : State} (hs : NeverNegativeLedger s) (o : List Order)
    (u : String) (v : JsNum) (hv : v.isNegative = false) :
    NeverNegativeLedger ⟨o, s.balances.set u v⟩ := by
  intro w x hx
  simp only [Balances.set] at hx
  by_cases hw : w = u
  · simp only [hw, if_true, Option.some.injEq] at hx
    rw [← hx]; exact hv
  · simp only [hw, if_false] at hx
    exact hs w x hx

theorem sub_not_negative {b v : JsNum} (hb : b.nonNegative = true)
    (hv : v.nonNegative = true) (hle : v.gt b = false) :
    (b.sub v).isNegative = false := by
  rcases nonNegative_cases hb with rfl | ⟨x, hx, rfl⟩ <;>
    rcases nonNegative_cases hv with rfl | ⟨y, hy, rfl⟩
  · rfl
  · rfl
  · simp [JsNum.gt] at hle
  · simp only [JsNum.gt, decide_eq_false_iff_not, not_lt] at hle
    simp only [JsNum.sub, JsNum.neg, JsNum.add]
    exact nonNegative_not_isNegative (roundDouble_nonneg (by linarith))

theorem add_not_negative {b v : JsNum} (hb : b.nonNegative = true)
    (hv : v.nonNegative = true) : (b.add v).isNegative = false := by
  rcases nonNegative_cases hb with rfl | ⟨x, hx, rfl⟩ <;>
    rcases nonNegative_cases hv with rfl | ⟨y, hy, rfl⟩
  · rfl
  · rfl
  · rfl
  · simp only [JsNum.add]
    exact nonNegative_not_isNegative (roundDouble_nonneg (by linarith))

theorem placeOrder_neverNegative {s : State} (hs : NeverNegativeLedger s)
    (auth : Auth) (body : OrderRequest) (env : Env)
    (hpos : body.positive = true) :
    NeverNegativeLedger (placeOrder s auth body env).2 := by
  rcases placeOrder_unchanged_or_ok s auth body env with ⟨h, -⟩ | ⟨o, s2, h⟩
  · rw [h]; exact hs
  · obtain ⟨userId, k, t, -, -, ht, -, hafford, -, rfl⟩ :=
      placeOrder_ok_inv s s2 auth body env o h
    rw [h]
    simp only [OrderRequest.positive, Bool.and_eq_true] at hpos
    obtain ⟨q, hq0, hq⟩ := positive_iff.mp hpos.1
    obtain ⟨p, hp0, hp⟩ := positive_iff.mp hpos.2
    have hb := currentBalance_nonNegative hs userId
    have hv : (orderValue body).nonNegative = true := by
      rw [orderValue_of_fin hq hp]
      exact roundDouble_nonneg (mul_pos hq0 hp0).le
    show NeverNegativeLedger ⟨_, ledgerAfter s userId body⟩
    by_cases hbuy : t = "BUY"
    · subst hbuy
      simp only [true_and, Bool.not_eq_true] at hafford
      simp only [ledgerAfter, ht, if_true]
      exact set_neverNegative hs _ _ _ (sub_not_negative hb hv hafford)
    · have hne : body.type ≠ JsVal.str "BUY" := by
        rw [ht]; intro hc; exact hbuy (JsVal.str.inj hc)
      simp only [ledgerAfter, hne, if_false]
      exact set_neverNegative hs _ _ _ (add_not_negative hb hv)

theorem step_neverNegative {s : State} (hs : NeverNegativeLedger s) (r : Request)
    (hr : r.positive = true) : NeverNegativeLedger (step s r) := by
  cases r with
  | order auth body env => exact placeOrder_neverNegative hs auth body env hr
  | fundsBalance auth =>
    simp only [step, getFundsBalance]
    cases resolveUserId auth <;> exact hs
  | signalEntry r1 r2 r3 id =>
    simp only [step, getSignalEntry]
    cases pickSymbol r1 <;> exact hs
  | marketPrices => exact hs

theorem run_neverNegative (rs : List Request) :
    ∀ (s : State), NeverNegativeLedger s → (∀ r ∈ rs, r.positive = true) →
      NeverNegativeLedger (run s rs) := by
  induction rs with
  | nil => intro s hs _; exact hs
  | cons r rs ih =>
    intro s hs h
    exact ih (step s r) (step_neverNegative hs r (h r (List.mem_cons_self _ _)))
      (fun x hx => h x (List.mem_cons_of_mem _ hx))

theorem initial_neverNegative : NeverNegativeLedger State.initial := by
  intro u v h
  simp [State.initial] at h

/-! ## Evaluation of the sample requests -/

theorem run_nil (s : State) : run s [] = s := rfl

theorem run_cons (s : State) (r : Request) (rs : List Request) :
    run s (r :: rs) = run (step s r) rs := rfl

theorem step_order (s : State) (auth : Auth) (body : OrderRequest) (env : Env) :
    step s (.order auth body env) = (placeOrder s auth body env).2 := rfl

theorem ledgerAfter_buy (s : State) (userId : String) {body : OrderRequest}
    (ht : body.type = .str "BUY") :
    ledgerAfter s userId body = s.balances.set userId
      ((currentBalance s.balances userId).sub (orderValue body)) := by
  simp [ledgerAfter, ht]

theorem ledgerAfter_other (s : State) (userId : String) {body : OrderRequest}
    (ht : body.type ≠ .str "BUY") :
    ledgerAfter s userId body = s.balances.set userId
      ((currentBalance s.balances userId).add (orderValue body)) := by
  simp [ledgerAfter, ht]

theorem set_self (b : Balances) (u : String) (v : JsNum) : (b.set u v) u = some v := by
  simp [Balances.set]

theorem currentBalance_initial (u : String) :
    currentBalance State.initial.balances u = .fin 100000 := rfl

theorem reportedBalance_eq (s : State) (u : String) :
    reportedBalance s (.verified u) = some (currentBalance s.balances u) := rfl

theorem reportedBalance_absent (s : State) :
    reportedBalance s .absent = some (currentBalance s.balances "demo") := rfl

theorem currentBalance_of_stored (b : Balances) (u : String) :
    (b u = none → currentBalance b u = .fin 100000) ∧
      (∀ q : ℚ, q ≠ 0 → b u = some (.fin q) → currentBalance b u = .fin q) := by
  refine ⟨fun h => by simp [currentBalance, h], fun q hq h => ?_⟩
  simp [currentBalance, h, JsNum.truthy, hq]

theorem placeOrder_debit (s : State) (auth : Auth) (body : OrderRequest)
    (env : Env) (userId k : String) (b v c : ℚ)
    (hu : resolveUserId auth = some userId)
    (hs : body.symbol = .str k) (hk : k ≠ "")
    (ht : body.type = .str "BUY")
    (hq : body.quantity.truthy = true)
    (hb : currentBalance s.balances userId = .fin b)
    (hv : orderValue body = .fin v) (hle : v ≤ b)
    (hc : roundDouble (b + -v) = .fin c) :
    placeOrder s auth body env =
      (.ok (orderRecord userId k "BUY" body env),
       ⟨s.orders ++ [orderRecord userId k "BUY" body env],
        s.balances.set userId (.fin c)⟩) := by
  rw [placeOrder_executes s auth body env userId k "BUY" hu hs hk ht (by decide) hq
    (by simp [hv, hb, JsNum.gt, hle])]
  simp [ledgerAfter, ht, hb, hv, JsNum.sub, JsNum.neg, JsNum.add, hc]

theorem placeOrder_credit (s : State) (auth : Auth) (body : OrderRequest)
    (env : Env) (userId k t : String) (b v c : ℚ)
    (hu : resolveUserId auth = some userId)
    (hs : body.symbol = .str k) (hk : k ≠ "")
    (ht : body.type = .str t) (htne : t ≠ "") (hnb : t ≠ "BUY")
    (hq : body.quantity.truthy = true)
    (hb : currentBalance s.balances userId = .fin b)
    (hv : orderValue body = .fin v)
    (hc : roundDouble (b + v) = .fin c) :
    placeOrder s auth body env =
      (.ok (orderRecord userId k t body env),
       ⟨s.orders ++ [orderRecord userId k t body env],
        s.balances.set userId (.fin c)⟩) := by
  rw [placeOrder_executes s auth body env userId k t hu hs hk ht htne hq
    (by simp [hnb])]
  simp [ledgerAfter, ht, hnb, hb, hv, JsNum.add, hc]

theorem nearestDouble_tcs : nearestDouble 3420.50 = 3420.5 := by
  rw [nearestDouble_of_eq 6841 (-1) (by norm_num) (by norm_num) (by norm_num) (by norm_num)]
  norm_num

theorem nearestDouble_hdfc : nearestDouble 1650.25 = 1650.25 :=
  nearestDouble_of_eq 6601 (-2) (by norm_num) (by norm_num) (by norm_num) (by norm_num)

theorem mockPricesGet_tcs : mockPricesGet (.str "TCS") = .num (.fin 3420.5) := by
  simp [mockPricesGet, mockPrices, List.lookup, nearestDouble_tcs]

theorem mockPricesGet_hdfc : mockPricesGet (.str "HDFC") = .num (.fin 1650.25) := by
  simp [mockPricesGet, mockPrices, List.lookup, nearestDouble_hdfc]

theorem orderPrice_buyTenTcs : orderPrice buyTenTcs = .num (.fin 3420.5) := by
  simp [orderPrice, buyTenTcs, JsVal.or, JsVal.truthy, JsNum.truthy, mockPricesGet_tcs]
  norm_num

theorem orderValue_buyTenTcs : orderValue buyTenTcs = .fin 34205 := by
  rw [orderValue, orderPrice_buyTenTcs]
  simp only [buyTenTcs, JsVal.toNumber, JsNum.mul]
  rw [roundDouble_of_eq 34205 0 (by norm_num) (by norm_num) (by norm_num) (by norm_num)
    (by norm_num)]
  norm_num

theorem orderValue_buyThirtyTcs : orderValue buyThirtyTcs = .fin 102615 := by
  have hp : orderPrice buyThirtyTcs = .num (.fin 3420.5) := by
    simp [orderPrice, buyThirtyTcs, JsVal.or, JsVal.truthy, JsNum.truthy, mockPricesGet_tcs]
    norm_num
  rw [orderValue, hp]
  simp only [buyThirtyTcs, JsVal.toNumber, JsNum.mul]
  rw [roundDouble_of_eq 102615 0 (by norm_num) (by norm_num) (by norm_num) (by norm_num)
    (by norm_num)]
  norm_num

theorem orderValue_lowerCaseBuy : orderValue lowerCaseBuy = .fin 102615 := by
  have hp : orderPrice lowerCaseBuy = .num (.fin 3420.5) := by
    simp [orderPrice, lowerCaseBuy, JsVal.or, JsVal.truthy, JsNum.truthy, mockPricesGet_tcs]
    norm_num
  rw [orderValue, hp]
  simp only [lowerCaseBuy, JsVal.toNumber, JsNum.mul]
  rw [roundDouble_of_eq 102615 0 (by norm_num) (by norm_num) (by norm_num) (by norm_num)
    (by norm_num)]
  norm_num

theorem orderValue_buyWholeBalance : orderValue buyWholeBalance = .fin 100000 := by
  have hp : orderPrice buyWholeBalance = .num (.fin 100) := by
    simp [orderPrice, buyWholeBalance, JsVal.or, JsVal.truthy, JsNum.truthy]
  rw [orderValue, hp]
  simp only [buyWholeBalance, JsVal.toNumber, JsNum.mul]
  rw [roundDouble_of_eq 100000 0 (by norm_num) (by norm_num) (by norm_num) (by norm_num)
    (by norm_num)]
  norm_num

theorem orderValue_buyMinusFiveTcs : orderValue buyMinusFiveTcs = .fin (-17102.5) := by
  have hp : orderPrice buyMinusFiveTcs = .num (.fin 3420.5) := by
    simp [orderPrice, buyMinusFiveTcs, JsVal.or, JsVal.truthy, JsNum.truthy,
      mockPricesGet_tcs]
    norm_num
  rw [orderValue, hp]
  simp only [buyMinusFiveTcs, JsVal.toNumber, JsNum.mul]
  rw [roundDouble_of_eq (-34205) (-1) (by norm_num) (by norm_num) (by norm_num)
    (by norm_num) (by norm_num)]
  norm_num

theorem orderValue_sellAtMinusFive : orderValue sellAtMinusFive = .fin (-5) := by
  have hp : orderPrice sellAtMinusFive = .num (.fin (-5)) := by
    simp [orderPrice, sellAtMinusFive, JsVal.or, JsVal.truthy, JsNum.truthy]
  rw [orderValue, hp]
  simp only [sellAtMinusFive, JsVal.toNumber, JsNum.mul]
  rw [roundDouble_of_eq (-5) 0 (by norm_num) (by norm_num) (by norm_num) (by norm_num)
    (by norm_num)]
  norm_num

theorem orderValue_sellFourHdfc : orderValue sellFourHdfc = .fin 6601 := by
  have hp : orderPrice sellFourHdfc = .num (.fin 1650.25) := by
    simp [orderPrice, sellFourHdfc, JsVal.or, JsVal.truthy, JsNum.truthy, mockPricesGet_hdfc]
    norm_num
  rw [orderValue, hp]
  simp only [sellFourHdfc, JsVal.toNumber, JsNum.mul]
  rw [roundDouble_of_eq 6601 0 (by norm_num) (by norm_num) (by norm_num) (by norm_num)
    (by norm_num)]
  norm_num

theorem orderValue_sellMinusOneHdfc : orderValue sellMinusOneHdfc = .fin (-106601) := by
  have hp : orderPrice sellMinusOneHdfc = .num (.fin 106601) := by
    simp [orderPrice, sellMinusOneHdfc, JsVal.or, JsVal.truthy, JsNum.truthy]
  rw [orderValue, hp]
  simp only [sellMinusOneHdfc, JsVal.toNumber, JsNum.mul]
  rw [roundDouble_of_eq (-106601) 0 (by norm_num) (by norm_num) (by norm_num)
    (by norm_num) (by norm_num)]
  norm_num

theorem orderValue_sellHugeTcs : orderValue sellHugeTcs = .posInf := by
  have hp : orderPrice sellHugeTcs = .num (.fin 3420.5) := by
    simp [orderPrice, sellHugeTcs, JsVal.or, JsVal.truthy, JsNum.truthy, mockPricesGet_tcs]
    norm_num
  rw [orderValue, hp]
  simp only [sellHugeTcs, JsVal.toNumber, JsNum.mul]
  apply roundDouble_overflow
  have h : (2 : ℚ) ^ 1024 = (2 : ℚ) ^ 1023 * 2 := by rw [pow_succ]
  rw [h]
  exact mul_le_mul_of_nonneg_left (by norm_num) (pow_pos (by norm_num) 1023).le

theorem orderValue_buyHugeTcs : orderValue buyHugeTcs = .posInf := by
  have h : orderValue buyHugeTcs = orderValue sellHugeTcs := rfl
  rw [h, orderValue_sellHugeTcs]

theorem roundDouble_zero : roundDouble 0 = .fin 0 := by
  simpa using roundDouble_intCast 0 (by norm_num) (by norm_num)

theorem placeOrder_buyWholeBalance :
    placeOrder State.initial .absent buyWholeBalance sampleEnv =
      (.ok (orderRecord "demo" "ITC" "BUY" buyWholeBalance sampleEnv),
       ⟨[orderRecord "demo" "ITC" "BUY" buyWholeBalance sampleEnv],
        State.initial.balances.set "demo" (.fin 0)⟩) := by
  rw [placeOrder_debit State.initial .absent buyWholeBalance sampleEnv "demo" "ITC"
    100000 100000 0 rfl rfl (by decide) rfl
    (by simp [buyWholeBalance, JsVal.truthy, JsNum.truthy])
    (currentBalance_initial _) orderValue_buyWholeBalance le_rfl
    (by rw [add_neg_cancel]; exact roundDouble_zero)]
  simp [State.initial]

theorem placeOrder_buyTenTcs :
    placeOrder State.initial .absent buyTenTcs sampleEnv =
      (.ok (orderRecord "demo" "TCS" "BUY" buyTenTcs sampleEnv),
       ⟨[orderRecord "demo" "TCS" "BUY" buyTenTcs sampleEnv],
        State.initial.balances.set "demo" (.fin 65795)⟩) := by
  rw [placeOrder_debit State.initial .absent buyTenTcs sampleEnv "demo" "TCS"
    100000 34205 65795 rfl rfl (by decide) rfl
    (by simp [buyTenTcs, JsVal.truthy, JsNum.truthy])
    (currentBalance_initial _) orderValue_buyTenTcs (by norm_num)
    (by rw [roundDouble_of_eq 65795 0 (by norm_num) (by norm_num) (by norm_num)
          (by norm_num) (by norm_num)]; norm_num)]
  simp [State.initial]

theorem nearestDouble_sum_third :
    nearestDouble (3 * (4581298449066667 / 2 ^ 37)) = 100000 := by
  have hq : (0 : ℚ) < 3 * (4581298449066667 / 2 ^ 37) := by norm_num
  have hlog : Int.log 2 (3 * (4581298449066667 / 2 ^ 37) : ℚ) = 16 :=
    log_two_eq hq (by norm_num) (by norm_num)
  have hu : ulpExponent |(3 * (4581298449066667 / 2 ^ 37) : ℚ)| = -36 := by
    rw [abs_of_pos hq, ulpExponent, hlog]; norm_num
  have hx : (3 * (4581298449066667 / 2 ^ 37) : ℚ) / (2 : ℚ) ^ (-36 : ℤ) =
      ((6871947673600000 : ℤ) : ℚ) + 1 / 2 := by norm_num
  rw [nearestDouble, hu, hx, roundHalfEven_tie_even _ (by norm_num)]
  norm_num

theorem orderValue_buyThreeAtThird : orderValue buyThreeAtThird = .fin 100000 := by
  have hp : orderPrice buyThreeAtThird = .num (.fin (4581298449066667 / 2 ^ 37)) := by
    simp [orderPrice, buyThreeAtThird, JsVal.or, JsVal.truthy, JsNum.truthy]
  rw [orderValue, hp]
  simp only [buyThreeAtThird, JsVal.toNumber, JsNum.mul, roundDouble,
    nearestDouble_sum_third]
  norm_num

theorem placeOrder_buyThreeAtThird :
    (3 : ℚ) * (4581298449066667 / 2 ^ 37) > 100000 ∧
    placeOrder State.initial .absent buyThreeAtThird sampleEnv =
      (.ok (orderRecord "demo" "ITC" "BUY" buyThreeAtThird sampleEnv),
       ⟨[orderRecord "demo" "ITC" "BUY" buyThreeAtThird sampleEnv],
        State.initial.balances.set "demo" (.fin 0)⟩) := by
  refine ⟨by norm_num, ?_⟩
  rw [placeOrder_debit State.initial .absent buyThreeAtThird sampleEnv "demo" "ITC"
    100000 100000 0 rfl rfl (by decide) rfl
    (by simp [buyThreeAtThird, JsVal.truthy, JsNum.truthy])
    (currentBalance_initial _) orderValue_buyThreeAtThird le_rfl
    (by rw [add_neg_cancel]; exact roundDouble_zero)]
  simp [State.initial]

theorem positive_of_price {body : OrderRequest} {q p : ℚ}
    (hq : body.quantity = .num (.fin q)) (hq0 : 0 < q)
    (hp : orderPrice body = .num (.fin p)) (hp0 : 0 < p) :
    body.positive = true := by
  simp [OrderRequest.positive, hq, hp, JsVal.toNumber, JsNum.positive, hq0, hp0]

theorem positive_buyTenTcs : buyTenTcs.positive = true :=
  positive_of_price (q := 10) rfl (by norm_num) orderPrice_buyTenTcs (by norm_num)

theorem positive_buyWholeBalance : buyWholeBalance.positive = true :=
  positive_of_price (q := 1000) (p := 100) rfl (by norm_num)
    (by simp [orderPrice, buyWholeBalance, JsVal.or, JsVal.truthy, JsNum.truthy])
    (by norm_num)

theorem positive_sellFourHdfc : sellFourHdfc.positive = true :=
  positive_of_price (q := 4) (p := 1650.25) rfl (by norm_num)
    (by simp [orderPrice, sellFourHdfc, JsVal.or, JsVal.truthy, JsNum.truthy,
          mockPricesGet_hdfc]; norm_num)
    (by norm_num)

theorem positive_sellHugeTcs : sellHugeTcs.positive = true :=
  positive_of_price (q := 2 ^ 1023) (p := 3420.5) rfl (pow_pos (by norm_num) 1023)
    (by simp [orderPrice, sellHugeTcs, JsVal.or, JsVal.truthy, JsNum.truthy,
          mockPricesGet_tcs]; norm_num)
    (by norm_num)

theorem positive_buyHugeTcs : buyHugeTcs.positive = true :=
  positive_of_price (q := 2 ^ 1023) (p := 3420.5) rfl (pow_pos (by norm_num) 1023)
    (by simp [orderPrice, buyHugeTcs, JsVal.or, JsVal.truthy, JsNum.truthy,
          mockPricesGet_tcs]; norm_num)
    (by norm_num)

theorem placeOrder_sellHugeTcs :
    placeOrder State.initial .absent sellHugeTcs sampleEnv =
      (.ok (orderRecord "demo" "TCS" "SELL" sellHugeTcs sampleEnv),
       ⟨[orderRecord "demo" "TCS" "SELL" sellHugeTcs sampleEnv],
        State.initial.balances.set "demo" .posInf⟩) := by
  have ht : sellHugeTcs.quantity.truthy = true := by
    simp [sellHugeTcs, JsVal.truthy, JsNum.truthy]
  have hne : sellHugeTcs.type ≠ .str "BUY" := by simp [sellHugeTcs]
  rw [placeOrder_executes State.initial .absent sellHugeTcs sampleEnv "demo" "TCS"
    "SELL" rfl rfl (by decide) rfl (by decide) ht (by simp),
    ledgerAfter_other _ _ hne, orderValue_sellHugeTcs, currentBalance_initial]
  rfl

theorem placeOrder_buyHugeTcs (s : State)
    (hcur : currentBalance s.balances "demo" = .posInf) :
    placeOrder s .absent buyHugeTcs sampleEnv =
      (.ok (orderRecord "demo" "TCS" "BUY" buyHugeTcs sampleEnv),
       ⟨s.orders ++ [orderRecord "demo" "TCS" "BUY" buyHugeTcs sampleEnv],
        s.balances.set "demo" .nan⟩) := by
  have ht : buyHugeTcs.quantity.truthy = true := by
    simp [buyHugeTcs, JsVal.truthy, JsNum.truthy]
  have hg : ¬ ("BUY" = "BUY" ∧
      (orderValue buyHugeTcs).gt (currentBalance s.balances "demo") = true) := by
    rw [orderValue_buyHugeTcs, hcur]; simp [JsNum.gt]
  have hb : buyHugeTcs.type = .str "BUY" := rfl
  rw [placeOrder_executes s .absent buyHugeTcs sampleEnv "demo" "TCS"
    "BUY" rfl rfl (by decide) rfl (by decide) ht hg,
    ledgerAfter_buy _ _ hb, orderValue_buyHugeTcs, hcur]
  rfl

theorem balances_of_set (o : List Order) (b : Balances) (u : String) (v : JsNum) :
    (State.mk o (b.set u v)).balances u = some v := set_self b u v

theorem snd_balances_of_set {α : Type} (x : α) (o : List Order) (b : Balances)
    (u : String) (v : JsNum) :
    (x, State.mk o (b.set u v)).2.balances u = some v := set_self b u v

/-! ## Properties -/

/-- C2. A BUY order (type exactly BUY, symbol and quantity present, user
resolved) whose value, the product `quantity * price` as the handler computes
it, is strictly greater than the current balance of the user, the value the
balance read reports, is answered with status 400 and the text
`Insufficient balance`, and the whole state - every balance and the order
log - is returned unchanged. -/
theorem buy_exceeding_balance_rejected (s : State) (auth : Auth)
    (userId : String) (body : OrderRequest) (env : Env)
    (hu : resolveUserId auth = some userId)
    (hsym : body.symbol.truthy = true)
    (hqty : body.quantity.truthy = true)
    (htype : body.type = .str "BUY")
    (hgt : (orderValue body).gt (currentBalance s.balances userId) = true) :
    placeOrder s auth body env = (.badRequest "Insufficient balance", s) ∧
      reportedBalance s auth = some (currentBalance s.balances userId) := by
  have hv : (!body.symbol.truthy || !body.type.truthy || !body.quantity.truthy) = false := by
    rw [hsym, hqty, htype]; simp [JsVal.truthy]
  refine ⟨?_, ?_⟩
  · simp only [placeOrder, hv, hu, Bool.false_eq_true, if_false]
    rw [if_pos ⟨htype, hgt⟩]
  · simp [reportedBalance, getFundsBalance, hu]

/-- C3, as amended. The order route answers with the validation failure
(status 400, `Symbol, type, and quantity are required`) and an unchanged
state exactly when symbol, type or quantity is missing or falsy; a quantity of
zero is such a case, a negative or fractional quantity is not. -/
theorem missing_field_rejected (s : State) (auth : Auth) (body : OrderRequest)
    (env : Env) :
    (body.symbol.truthy = false ∨ body.type.truthy = false ∨
        body.quantity.truthy = false) ↔
      placeOrder s auth body env =
        (.badRequest "Symbol, type, and quantity are required", s) := by
  constructor
  · intro h
    have hv : (!body.symbol.truthy || !body.type.truthy || !body.quantity.truthy) = true := by
      rcases h with h | h | h <;> rw [h] <;> simp
    simp only [placeOrder, hv, if_true]
  · intro h
    cases hv : (!body.symbol.truthy || !body.type.truthy || !body.quantity.truthy) with
    | true =>
      simp only [Bool.or_eq_true, Bool.not_eq_true'] at hv
      tauto
    | false =>
      exfalso
      cases hu : resolveUserId auth with
      | none => simp only [placeOrder, hv, hu, Bool.false_eq_true, if_false] at h; simp at h
      | some userId =>
        simp only [placeOrder, hv, hu, Bool.false_eq_true, if_false] at h
        by_cases ha : body.type = JsVal.str "BUY" ∧
            (orderValue body).gt (currentBalance s.balances userId) = true
        · rw [if_pos ha] at h; simp at h
        rw [if_neg ha] at h
        cases hsu : body.symbol.toUpperCase? <;> cases htu : body.type.toUpperCase? <;>
          simp [hsu, htu] at h

/-- C8, as amended. An order request that succeeds appends exactly one record
to the order log, after the existing records, which are kept as they were; the
record has the status text `EXECUTED`, the resolved user as owner and the
symbol of the request in upper case, by the Unicode mapping (`tcs` gives
`TCS`, `straße` gives `STRASSE`). A request that does not succeed leaves the
log unchanged, and so do the balance, signal and price reads. -/
theorem order_log_append_only (s : State) :
    (∀ auth body env,
      match placeOrder s auth body env with
      | (.ok o, s2) =>
        s2.orders = s.orders ++ [o] ∧ o.status = "EXECUTED" ∧
          resolveUserId auth = some o.userId ∧
          ∃ k, body.symbol = .str k ∧ o.symbol = toUpperCase k
      | (_, s2) => s2.orders = s.orders) ∧
    toUpperCase "tcs" = "TCS" ∧ toUpperCase "Infy-1" = "INFY-1" ∧
    toUpperCase "straße" = "STRASSE" ∧ toUpperCase "café" = "CAFÉ" ∧
    (∀ auth, (getFundsBalance s auth).2.orders = s.orders) ∧
    (∀ r1 r2 r3 id, (getSignalEntry s r1 r2 r3 id).2.orders = s.orders) ∧
    (getMarketPrices s).2.orders = s.orders := by
  refine ⟨?_, by decide, by decide, by decide, by decide, ?_, ?_, rfl⟩
  · intro auth body env
    rcases placeOrder_unchanged_or_ok s auth body env with ⟨h1, h2⟩ | ⟨o, s2, h⟩
    · generalize placeOrder s auth body env = r at h1 h2
      obtain ⟨resp, s3⟩ := r
      cases resp with
      | ok o => exact absurd rfl (h2 o)
      | badRequest e => simpa using congrArg State.orders h1
      | serverError e => simpa using congrArg State.orders h1
    · obtain ⟨userId, k, t, hu, hk, -, -, -, rfl, rfl⟩ :=
        placeOrder_ok_inv s s2 auth body env o h
      rw [h]
      exact ⟨rfl, rfl, hu, k, hk, rfl⟩
  · intro auth
    unfold getFundsBalance
    cases resolveUserId auth <;> rfl
  · intro r1 r2 r3 id
    unfold getSignalEntry
    cases pickSymbol r1 with
    | none => rfl
    | some p => rfl

/-- C4, as amended. For every accepted order whose symbol is not the name of
a member inherited from `Object.prototype`, the price recorded on the order
is the supplied price when that is truthy (any number other than zero,
negative ones included), otherwise the table price of the symbol as sent when
the table has it, otherwise 100; and the order value is the quantity times
that price. -/
theorem execution_price_resolved (s s2 : State) (auth : Auth)
    (body : OrderRequest) (env : Env) (o : Order)
    (h : placeOrder s auth body env = (.ok o, s2))
    (hproto : ∀ k, body.symbol = .str k → k ∉ objectPrototypeMembers) :
    ∃ k, body.symbol = .str k ∧
      o.price =
        (if body.price.truthy = true then body.price
         else match mockPrices.lookup k with
          | some p => .num (.fin p)
          | none => .num (.fin 100)) ∧
      orderValue body = body.quantity.toNumber.mul o.price.toNumber := by
  obtain ⟨userId, k, t, -, hk, -, -, -, rfl, -⟩ := placeOrder_ok_inv s s2 auth body env o h
  refine ⟨k, hk, ?_, rfl⟩
  have hk2 := hproto k hk
  show orderPrice body = _
  unfold orderPrice
  by_cases hp : body.price.truthy = true
  · simp [JsVal.or, hp]
  · simp only [JsVal.or, hp, if_false, hk, mockPricesGet, Bool.false_eq_true]
    cases hl : mockPrices.lookup k with
    | none => simp [hk2, JsVal.truthy]
    | some p =>
      have := (mockPrices_pos (mem_of_lookup_eq_some hl)).ne'
      simp [JsVal.truthy, JsNum.truthy, this]

/-- C5, as amended. In every state reached from the initial state by a finite
sequence of requests in which every order has a positive quantity and a
positive execution price, no balance the ledger holds is negative (each is a
number that is at least 0, possibly `Infinity`, or `NaN`), and the balance of
every user as the handlers read it is at least 0. -/
theorem balances_never_negative (rs : List Request)
    (h : ∀ r ∈ rs, r.positive = true) :
    NeverNegativeLedger (run State.initial rs) ∧
      ∀ u, (currentBalance (run State.initial rs).balances u).nonNegative = true :=
  ⟨run_neverNegative rs _ initial_neverNegative h,
   fun u => currentBalance_nonNegative (run_neverNegative rs _ initial_neverNegative h) u⟩

/-- C9. For all random draws with `0 ≤ r1 < 1` the signal route answers with
a signal over an entry of the price table whose levels straddle the price:
for BUY `stopLoss < price < targetPrice` with target `price * 1.03` and stop
`price * 0.98`, for SELL `targetPrice < price < stopLoss` with target
`price * 0.97` and stop `price * 1.02`. -/
theorem signal_levels_straddle_price (s : State) (r1 r2 r3 : ℚ) (id : String)
    (h0 : 0 ≤ r1) (h1 : r1 < 1) :
    ∃ sig, (getSignalEntry s r1 r2 r3 id).1 = some (.ok sig) ∧
      (sig.symbol, sig.price) ∈ mockPrices ∧
      (sig.signal = .BUY →
        sig.stopLoss < sig.price ∧ sig.price < sig.targetPrice ∧
        sig.targetPrice = sig.price * 1.03 ∧ sig.stopLoss = sig.price * 0.98) ∧
      (sig.signal = .SELL →
        sig.targetPrice < sig.price ∧ sig.price < sig.stopLoss ∧
        sig.targetPrice = sig.price * 0.97 ∧ sig.stopLoss = sig.price * 1.02) := by
  obtain ⟨⟨sym, price⟩, he, hmem⟩ := pickSymbol_some r1 h0 h1
  have hpos : 0 < price := mockPrices_pos hmem
  simp only [getSignalEntry, he]
  have hsb : Direction.SELL ≠ Direction.BUY := by decide
  by_cases hr : r2 > 0.5
  · simp only [hr, if_true]
    refine ⟨_, rfl, hmem, ?_, ?_⟩
    · intro _
      refine ⟨?_, ?_, rfl, rfl⟩ <;> norm_num <;> linarith
    · intro hb
      exact absurd hb.symm hsb
  · simp only [hr, if_false, hsb]
    refine ⟨_, rfl, hmem, ?_, ?_⟩
    · intro hb
      exact absurd hb hsb
    · intro _
      refine ⟨?_, ?_, rfl, rfl⟩ <;> norm_num <;> linarith

/-- C1, at the boundary. A fresh user reads 100000 and buys 1000 ITC at the
supplied price 100, an order worth exactly the balance: the order is
executed and the ledger entry becomes 0, but the balance read after the order
reports 100000 again instead of 0. Away from the boundary the read follows the
order: 10 TCS with no price supplied is worth 34205 and leaves 65795. -/
theorem buy_of_whole_balance_reads_default :
    reportedBalance State.initial .absent = some (.fin 100000) ∧
    orderValue buyWholeBalance = .fin 100000 ∧
    (∃ o, (placeOrder State.initial .absent buyWholeBalance sampleEnv).1 = .ok o) ∧
    (placeOrder State.initial .absent buyWholeBalance sampleEnv).2.balances "demo" =
      some (.fin 0) ∧
    reportedBalance (placeOrder State.initial .absent buyWholeBalance sampleEnv).2
      .absent = some (.fin 100000) ∧
    orderValue buyTenTcs = .fin 34205 ∧
    reportedBalance (placeOrder State.initial .absent buyTenTcs sampleEnv).2
      .absent = some (.fin 65795) := by
  refine ⟨rfl, orderValue_buyWholeBalance, ?_, ?_, ?_, orderValue_buyTenTcs, ?_⟩
  · rw [placeOrder_buyWholeBalance]; exact ⟨_, rfl⟩
  · rw [placeOrder_buyWholeBalance]; simp [Balances.set]
  · rw [placeOrder_buyWholeBalance, reportedBalance_absent]
    simp [currentBalance, Balances.set, JsNum.truthy]
  · rw [placeOrder_buyTenTcs, reportedBalance_absent]
    simp [currentBalance, Balances.set, JsNum.truthy]

/-- C6, at a stored zero. Whenever the ledger holds the balance 0 for a
user, the balance read reports 100000, the value it reports for a user with no
entry; the state after a fresh user spends the whole balance is such a
state. -/
theorem stored_zero_reads_default :
    (∀ (s : State) (u : String),
      (s.balances.set u (.fin 0)) u = some (.fin 0) ∧
      reportedBalance ⟨s.orders, s.balances.set u (.fin 0)⟩ (.verified u) =
        some (.fin 100000)) ∧
    (run State.initial [.order .absent buyWholeBalance sampleEnv]).balances "demo" =
      some (.fin 0) ∧
    reportedBalance (run State.initial [.order .absent buyWholeBalance sampleEnv])
      .absent = some (.fin 100000) := by
  refine ⟨?_, ?_, ?_⟩
  · intro s u
    rw [reportedBalance_eq]
    simp [currentBalance, Balances.set, JsNum.truthy]
  · rw [run_cons, run_nil, step_order, placeOrder_buyWholeBalance]
    exact snd_balances_of_set _ _ _ _ _
  · rw [run_cons, run_nil, step_order, placeOrder_buyWholeBalance, reportedBalance_absent]
    simp [currentBalance, Balances.set, JsNum.truthy]

/-- C10, at a lower-case type. For `type: "buy"` and 30 TCS (worth 102615,
more than the balance 100000) the order is executed and its record has type
`BUY`, quantity 30 and price 3420.5, yet the ledger entry goes from the
default 100000 up to 202615: the record says BUY while the ledger is credited
with no affordability check. -/
theorem lower_case_buy_is_credited :
    orderValue lowerCaseBuy = .fin 102615 ∧
    currentBalance State.initial.balances "demo" = .fin 100000 ∧
    (∃ o, (placeOrder State.initial .absent lowerCaseBuy sampleEnv).1 = .ok o ∧
      o.type = "BUY" ∧ o.quantity = .fin 30 ∧ o.price = .num (.fin 3420.5)) ∧
    (placeOrder State.initial .absent lowerCaseBuy sampleEnv).2.balances "demo" =
      some (.fin 202615) := by
  have h := placeOrder_credit State.initial .absent lowerCaseBuy sampleEnv "demo" "TCS"
    "buy" 100000 102615 202615 rfl rfl (by decide) rfl (by decide) (by decide)
    (by simp [lowerCaseBuy, JsVal.truthy, JsNum.truthy])
    (currentBalance_initial _) orderValue_lowerCaseBuy
    (by rw [roundDouble_of_eq 202615 0 (by norm_num) (by norm_num) (by norm_num)
          (by norm_num) (by norm_num)]; norm_num)
  refine ⟨orderValue_lowerCaseBuy, rfl, ?_, ?_⟩
  · rw [h]
    refine ⟨_, rfl, by decide, ?_, ?_⟩
    · simp [orderRecord, lowerCaseBuy, JsVal.parseInt, parseIntNumber]
      norm_num
    · simp [orderRecord, orderPrice, lowerCaseBuy, JsVal.or, JsVal.truthy, JsNum.truthy,
        mockPricesGet_tcs]
      norm_num
  · rw [h]; simp [Balances.set]

/-- C3 fails as stated: an order with quantity `-5` is not rejected but
executed; it is appended to the log and, being a BUY of negative value, raises
the balance from 100000 to 117102.5. -/
theorem negative_quantity_is_executed :
    buyMinusFiveTcs.quantity = .num (.fin (-5)) ∧
    ∃ o, placeOrder State.initial .absent buyMinusFiveTcs sampleEnv =
      (.ok o, ⟨[o], State.initial.balances.set "demo" (.fin 117102.5)⟩) := by
  refine ⟨rfl, orderRecord "demo" "TCS" "BUY" buyMinusFiveTcs sampleEnv, ?_⟩
  rw [placeOrder_debit State.initial .absent buyMinusFiveTcs sampleEnv "demo" "TCS"
    100000 (-17102.5) 117102.5 rfl rfl (by decide) rfl
    (by simp [buyMinusFiveTcs, JsVal.truthy, JsNum.truthy])
    (currentBalance_initial _) orderValue_buyMinusFiveTcs (by norm_num)
    (by rw [roundDouble_of_eq 234205 (-1) (by norm_num) (by norm_num) (by norm_num)
          (by norm_num) (by norm_num)]; norm_num)]
  simp [State.initial]

/-- C4 fails as stated: a supplied price of `-5` is used as the execution
price; the record carries it, the order value is `-5`, and the SELL lowers the
balance from 100000 to 99995. -/
theorem negative_price_is_used :
    sellAtMinusFive.price = .num (.fin (-5)) ∧
    ∃ o s2, placeOrder State.initial .absent sellAtMinusFive sampleEnv = (.ok o, s2) ∧
      o.price = .num (.fin (-5)) ∧ orderValue sellAtMinusFive = .fin (-5) ∧
      s2.balances "demo" = some (.fin 99995) := by
  refine ⟨rfl, _, _, placeOrder_credit State.initial .absent sellAtMinusFive sampleEnv
    "demo" "TCS" "SELL" 100000 (-5) 99995 rfl rfl (by decide) rfl (by decide) (by decide)
    (by simp [sellAtMinusFive, JsVal.truthy, JsNum.truthy])
    (currentBalance_initial _) orderValue_sellAtMinusFive
    (by rw [roundDouble_of_eq 99995 0 (by norm_num) (by norm_num) (by norm_num)
          (by norm_num) (by norm_num)]; norm_num),
    ?_, orderValue_sellAtMinusFive, ?_⟩
  · simp [orderRecord, orderPrice, sellAtMinusFive, JsVal.or, JsVal.truthy, JsNum.truthy]
  · simp [Balances.set]

/-- C5 fails as stated: the guest sells and then buys `2 ^ 1023` TCS, two
orders with a positive integer quantity and the positive price 3420.5. Each
order is worth `Infinity`; the sale makes the balance `Infinity`, the purchase
passes the affordability check and leaves `Infinity - Infinity`, so the ledger
holds `NaN`, which is not at least 0. -/
theorem overflow_leaves_nan_balance :
    (∀ r ∈ overflowRequests, r.positive = true) ∧
    orderValue sellHugeTcs = .posInf ∧
    (run State.initial [.order .absent sellHugeTcs sampleEnv]).balances "demo" =
      some .posInf ∧
    (run State.initial overflowRequests).balances "demo" = some .nan ∧
    JsNum.nan.nonNegative = false := by
  have hcur : currentBalance (State.initial.balances.set "demo" .posInf) "demo" =
      .posInf := by
    simp [currentBalance, Balances.set, JsNum.truthy]
  refine ⟨?_, orderValue_sellHugeTcs, ?_, ?_, rfl⟩
  · intro r hr
    simp only [overflowRequests, List.mem_cons, List.mem_singleton, List.not_mem_nil,
      or_false] at hr
    rcases hr with rfl | rfl
    · exact positive_sellHugeTcs
    · exact positive_buyHugeTcs
  · rw [run_cons, run_nil, step_order, placeOrder_sellHugeTcs]
    exact snd_balances_of_set _ _ _ _ _
  · rw [overflowRequests, run_cons, run_cons, run_nil, step_order, step_order,
      placeOrder_sellHugeTcs, placeOrder_buyHugeTcs _ hcur]
    exact snd_balances_of_set _ _ _ _ _

/-- C7, at a balance the read mistakes. After the guest has spent the whole
balance the ledger holds 0; a SELL of 4 HDFC, worth 6601, then stores 106601
and not `0 + 6601`. And where the ledger holds `-6601`, which the balance read
reports, the same SELL is executed and stores 0, after which the balance read
reports 100000 and not `-6601 + 6601 = 0`. -/
theorem sell_misses_credit_at_zero :
    orderValue sellFourHdfc = .fin 6601 ∧
    emptiedState.balances "demo" = some (.fin 0) ∧
    (∃ o, (placeOrder emptiedState .absent sellFourHdfc sampleEnv).1 = .ok o) ∧
    (placeOrder emptiedState .absent sellFourHdfc sampleEnv).2.balances "demo" =
      some (.fin 106601) ∧
    overdrawnState.balances "demo" = some (.fin (-6601)) ∧
    reportedBalance overdrawnState .absent = some (.fin (-6601)) ∧
    (∃ o, (placeOrder overdrawnState .absent sellFourHdfc sampleEnv).1 = .ok o) ∧
    (placeOrder overdrawnState .absent sellFourHdfc sampleEnv).2.balances "demo" =
      some (.fin 0) ∧
    reportedBalance (placeOrder overdrawnState .absent sellFourHdfc sampleEnv).2
      .absent = some (.fin 100000) := by
  have he : emptiedState = ⟨[orderRecord "demo" "ITC" "BUY" buyWholeBalance sampleEnv],
      State.initial.balances.set "demo" (.fin 0)⟩ := by
    rw [emptiedState, run_cons, run_nil, step_order, placeOrder_buyWholeBalance]
  have ho : overdrawnState =
      ⟨[orderRecord "demo" "HDFC" "SELL" sellMinusOneHdfc sampleEnv],
        State.initial.balances.set "demo" (.fin (-6601))⟩ := by
    rw [overdrawnState, run_cons, run_nil, step_order,
      placeOrder_credit State.initial .absent sellMinusOneHdfc sampleEnv "demo" "HDFC"
      "SELL" 100000 (-106601) (-6601) rfl rfl (by decide) rfl (by decide) (by decide)
      (by simp [sellMinusOneHdfc, JsVal.truthy, JsNum.truthy])
      (currentBalance_initial _) orderValue_sellMinusOneHdfc
      (by rw [roundDouble_of_eq (-6601) 0 (by norm_num) (by norm_num) (by norm_num)
            (by norm_num) (by norm_num)]; norm_num)]
    rfl
  have hce : currentBalance emptiedState.balances "demo" = .fin 100000 := by
    rw [he]; simp [currentBalance, Balances.set, JsNum.truthy]
  have hco : currentBalance overdrawnState.balances "demo" = .fin (-6601) := by
    rw [ho]; simp [currentBalance, Balances.set, JsNum.truthy]
  have h1 := placeOrder_credit emptiedState .absent sellFourHdfc sampleEnv "demo" "HDFC"
    "SELL" 100000 6601 106601 rfl rfl (by decide) rfl (by decide) (by decide)
    (by simp [sellFourHdfc, JsVal.truthy, JsNum.truthy]) hce orderValue_sellFourHdfc
    (by rw [roundDouble_of_eq 106601 0 (by norm_num) (by norm_num) (by norm_num)
          (by norm_num) (by norm_num)]; norm_num)
  have h2 := placeOrder_credit overdrawnState .absent sellFourHdfc sampleEnv "demo" "HDFC"
    "SELL" (-6601) 6601 0 rfl rfl (by decide) rfl (by decide) (by decide)
    (by simp [sellFourHdfc, JsVal.truthy, JsNum.truthy]) hco orderValue_sellFourHdfc
    (by rw [neg_add_cancel]; exact roundDouble_zero)
  refine ⟨orderValue_sellFourHdfc, ?_, ?_, ?_, ?_, ?_, ?_, ?_, ?_⟩
  · rw [he]; exact balances_of_set _ _ _ _
  · rw [h1]; exact ⟨_, rfl⟩
  · rw [h1]; exact snd_balances_of_set _ _ _ _ _
  · rw [ho]; exact balances_of_set _ _ _ _
  · rw [reportedBalance_absent, hco]
  · rw [h2]; exact ⟨_, rfl⟩
  · rw [h2]; exact snd_balances_of_set _ _ _ _ _
  · rw [h2, reportedBalance_absent]
    simp [currentBalance, Balances.set, JsNum.truthy]

/-- C8 fails as stated: the record of an executed order carries the status
text `EXECUTED`, in upper case, not `executed`. -/
theorem executed_status_is_upper_case :
    ∃ o, (placeOrder State.initial .absent buyTenTcs sampleEnv).1 = .ok o ∧
      o.status = "EXECUTED" ∧ o.status ≠ "executed" := by
  rw [placeOrder_buyTenTcs]
  exact ⟨_, rfl, rfl, by decide⟩

/-- Witness for C2: a fresh user buying 30 TCS, worth 102615. For contrast,
3 ITC at 33333.333333333336 is worth exactly 100000 once the product is
rounded, which is not greater than the balance. -/
theorem buy_exceeding_balance_rejected_witness :
    resolveUserId .absent = some "demo" ∧
    buyThirtyTcs.type = .str "BUY" ∧
    (orderValue buyThirtyTcs).gt (currentBalance State.initial.balances "demo") = true ∧
    (placeOrder State.initial .absent buyThirtyTcs sampleEnv =
        (.badRequest "Insufficient balance", State.initial) ∧
      reportedBalance State.initial .absent =
        some (currentBalance State.initial.balances "demo")) ∧
    orderValue buyThreeAtThird = .fin 100000 ∧
    (orderValue buyThreeAtThird).gt (currentBalance State.initial.balances "demo") =
      false :=
  have hgt : (orderValue buyThirtyTcs).gt
      (currentBalance State.initial.balances "demo") = true := by
    rw [orderValue_buyThirtyTcs, currentBalance_initial]; simp [JsNum.gt]; norm_num
  ⟨rfl, rfl, hgt,
    buy_exceeding_balance_rejected State.initial .absent "demo" buyThirtyTcs sampleEnv
      rfl rfl (by simp [buyThirtyTcs, JsVal.truthy, JsNum.truthy]) rfl hgt,
    orderValue_buyThreeAtThird,
    by rw [orderValue_buyThreeAtThird, currentBalance_initial]; simp [JsNum.gt]⟩

/-- Witness for C4 as amended: 10 TCS with no price supplied executes at the
table price. -/
theorem execution_price_resolved_witness :
    ∃ k, buyTenTcs.symbol = .str k ∧
      (orderRecord "demo" "TCS" "BUY" buyTenTcs sampleEnv).price =
        (if buyTenTcs.price.truthy = true then buyTenTcs.price
         else match mockPrices.lookup k with
          | some p => .num (.fin p)
          | none => .num (.fin 100)) ∧
      orderValue buyTenTcs = buyTenTcs.quantity.toNumber.mul
        (orderRecord "demo" "TCS" "BUY" buyTenTcs sampleEnv).price.toNumber :=
  execution_price_resolved State.initial _ .absent buyTenTcs sampleEnv _
    placeOrder_buyTenTcs
    (by
      intro k hk
      have : k = "TCS" := (JsVal.str.inj hk).symm
      subst this
      decide)

/-- Witness for C5 as amended: two users, a partial buy, a read, a sell, a buy
of exactly the default balance, and the two orders that overflow. -/
theorem balances_never_negative_witness :
    NeverNegativeLedger (run State.initial
      [.order .absent buyTenTcs sampleEnv, .fundsBalance .absent,
       .order (.verified "asha") sellFourHdfc sampleEnv,
       .order (.verified "asha") buyWholeBalance sampleEnv,
       .order .absent sellHugeTcs sampleEnv, .order .absent buyHugeTcs sampleEnv]) ∧
      ∀ u, (currentBalance (run State.initial
        [.order .absent buyTenTcs sampleEnv, .fundsBalance .absent,
         .order (.verified "asha") sellFourHdfc sampleEnv,
         .order (.verified "asha") buyWholeBalance sampleEnv,
         .order .absent sellHugeTcs sampleEnv,
         .order .absent buyHugeTcs sampleEnv]).balances u).nonNegative = true :=
  balances_never_negative _ (by
    intro r hr
    simp only [List.mem_cons, List.mem_singleton, List.not_mem_nil, or_false] at hr
    rcases hr with rfl | rfl | rfl | rfl | rfl | rfl
    · exact positive_buyTenTcs
    · rfl
    · exact positive_sellFourHdfc
    · exact positive_buyWholeBalance
    · exact positive_sellHugeTcs
    · exact positive_buyHugeTcs)

/-- Witness for C9: the draws `1/3`, `2/3`, `1/2`. -/
theorem signal_levels_straddle_price_witness :
    ∃ sig, (getSignalEntry State.initial (1 / 3) (2 / 3) (1 / 2) "sig-1").1 = some (.ok sig) ∧
      (sig.symbol, sig.price) ∈ mockPrices ∧
      (sig.signal = .BUY →
        sig.stopLoss < sig.price ∧ sig.price < sig.targetPrice ∧
        sig.targetPrice = sig.price * 1.03 ∧ sig.stopLoss = sig.price * 0.98) ∧
      (sig.signal = .SELL →
        sig.targetPrice < sig.price ∧ sig.price < sig.stopLoss ∧
        sig.targetPrice = sig.price * 0.97 ∧ sig.stopLoss = sig.price * 1.02) :=
  signal_levels_straddle_price State.initial (1 / 3) (2 / 3) (1 / 2) "sig-1"
    (by norm_num) (by norm_num)

end AlfaTrading
